import Mathlib

/-!
Chat session registry (`src/chat_session.c`).

A shallow embedding of the chat-state registry of Profanity.  The C module keeps
one process-wide hash table `sessions` from recipient strings to heap allocated
`struct chat_session_t` records and reports missing sessions through `log_error`.

Modelling decisions:

* the static `sessions` table and the log sink are threaded explicitly as a
  `Registry` value; every C function becomes a function on `Registry`;
* the GLib hash table (string keys, `g_str_equal`) is a finite map, embedded as a
  function `String → Option chat_session_t`; `NULL` from `g_hash_table_lookup` is
  `none`;
* a `GTimer` is the clock reading at which it was last started; the clock reading
  `now` is an explicit argument of every function that reads the clock
  (`g_timer_new`, `g_timer_start`, `g_timer_elapsed`);
* `gdouble` seconds are rationals, so `120.0` and `600.0` are `120` and `600`
  and `>` is the strict order;
* `gboolean` is `Bool`;
* the functions are modelled after `chat_sessions_init` has run, so `sessions`
  points to a table; `malloc` and `strdup` succeed.
-/

namespace ChatSession

/-! ## Constants and data model -/

/-- The macro `INACTIVE_TIMOUT`, defined as `120.0`. -/
def INACTIVE_TIMOUT : ℚ := 120

/-- The macro `GONE_TIMOUT`, defined as `600.0`. -/
def GONE_TIMOUT : ℚ := 600

/-- The enumeration `chat_state_t`. -/
inductive chat_state_t where
  | CHAT_STATE_STARTED
  | CHAT_STATE_ACTIVE
  | CHAT_STATE_INACTIVE
  | CHAT_STATE_GONE
  deriving DecidableEq, Repr

open chat_state_t

/-- GLib timer: the clock reading (in seconds) at which it was last started.
The module never stops a timer, so a timer is always running. -/
structure GTimer where
  start : ℚ
  deriving DecidableEq, Repr

/-- GLib `g_timer_new ()`: a fresh timer, started at the current clock reading. -/
def g_timer_new (now : ℚ) : GTimer := ⟨now⟩

/-- GLib `g_timer_start (timer)`: marks the current clock reading as the start time.
On a `NULL` timer GLib returns without doing anything. -/
def g_timer_start (timer : Option GTimer) (now : ℚ) : Option GTimer :=
  match timer with
  | none => none
  | some _ => some ⟨now⟩

/-- GLib `g_timer_elapsed (timer, NULL)`: seconds between the start time and the
current clock reading. -/
def g_timer_elapsed (timer : GTimer) (now : ℚ) : ℚ := now - timer.start

/-- The record `struct chat_session_t`; `active_timer` is a pointer and may be `NULL`. -/
structure chat_session_t where
  recipient : String
  recipient_supports : Bool
  state : chat_state_t
  active_timer : Option GTimer
  sent : Bool
  deriving DecidableEq, Repr

/-- The GLib hash table `sessions`: string keys compared with `g_str_equal`,
at most one value per key. -/
abbrev GHashTable := String → Option chat_session_t

/-- GLib `g_hash_table_lookup (table, key)`; `none` is `NULL`. -/
def g_hash_table_lookup (table : GHashTable) (key : String) : Option chat_session_t :=
  table key

/-- GLib `g_hash_table_insert (table, key, value)`: a value already stored under an
equal key is replaced (and released by the destroy callback). -/
def g_hash_table_insert (table : GHashTable) (key : String) (value : chat_session_t) :
    GHashTable :=
  fun k => if k = key then some value else table k

/-- GLib `g_hash_table_remove (table, key)`. -/
def g_hash_table_remove (table : GHashTable) (key : String) : GHashTable :=
  fun k => if k = key then none else table k

/-- GLib `g_hash_table_new_full (...)`: the empty table. -/
def g_hash_table_new_full : GHashTable := fun _ => none

/-- GLib `g_hash_table_remove_all (table)`. -/
def g_hash_table_remove_all (_table : GHashTable) : GHashTable := fun _ => none

/-- The module state: the static `sessions` table together with the messages
handed to the logging collaborator so far (oldest first). -/
structure Registry where
  sessions : GHashTable
  log : List String

/-- Modelled from the spec: `log_error` is declared in `log.h`, which is not part
of the sources at hand.  The logging collaborator "receives a single diagnostic
message" per call; the call has no other effect on the module. -/
def log_error (r : Registry) (msg : String) : Registry :=
  { r with log := r.log ++ [msg] }

/-- The formatted text of `"No chat session found for %s."`. -/
def no_session_msg (recipient : String) : String :=
  "No chat session found for " ++ recipient ++ "."

/-- Writing through the pointer returned by `g_hash_table_lookup`: the record
stored under `recipient` becomes `session`. -/
def store (r : Registry) (recipient : String) (session : chat_session_t) : Registry :=
  { r with sessions := fun k => if k = recipient then some session else r.sessions k }

/-! ## The functions of `chat_session.c` -/

/-- C function `_chat_session_new` -/
def _chat_session_new (recipient : String) (recipient_supports : Bool) (now : ℚ) :
    chat_session_t :=
  { recipient := recipient
    recipient_supports := recipient_supports
    state := CHAT_STATE_STARTED
    active_timer := some (g_timer_new now)
    sent := false }

/-- C function `chat_sessions_init` -/
def chat_sessions_init (r : Registry) : Registry :=
  { r with sessions := g_hash_table_new_full }

/-- C function `chat_sessions_clear` -/
def chat_sessions_clear (r : Registry) : Registry :=
  { r with sessions := g_hash_table_remove_all r.sessions }

/-- C function `chat_session_exists` -/
def chat_session_exists (r : Registry) (recipient : String) : Bool × Registry :=
  match g_hash_table_lookup r.sessions recipient with
  | some _ => (true, r)
  | none => (false, r)

/-- C function `chat_session_start` -/
def chat_session_start (r : Registry) (recipient : String) (recipient_supports : Bool)
    (now : ℚ) : Registry :=
  let session := _chat_session_new recipient recipient_supports now
  { r with sessions := g_hash_table_insert r.sessions recipient session }

/-- C function `chat_session_set_active` -/
def chat_session_set_active (r : Registry) (recipient : String) (now : ℚ) : Registry :=
  match g_hash_table_lookup r.sessions recipient with
  | none => log_error r (no_session_msg recipient)
  | some session =>
    store r recipient
      { session with
        state := CHAT_STATE_ACTIVE
        active_timer := g_timer_start session.active_timer now }

/-- The body of the `else` branch of `chat_session_no_activity`: the session
after the poll, given the current clock reading. -/
def no_activity_session (session : chat_session_t) (now : ℚ) : chat_session_t :=
  match session.active_timer with
  | none => session
  | some timer =>
    let elapsed := g_timer_elapsed timer now
    if elapsed > GONE_TIMOUT then
      { session with
        sent := if session.state ≠ CHAT_STATE_GONE then false else session.sent
        state := CHAT_STATE_GONE }
    else if elapsed > INACTIVE_TIMOUT then
      { session with
        sent := if session.state ≠ CHAT_STATE_INACTIVE then false else session.sent
        state := CHAT_STATE_INACTIVE }
    else session

/-- C function `chat_session_no_activity` -/
def chat_session_no_activity (r : Registry) (recipient : String) (now : ℚ) : Registry :=
  match g_hash_table_lookup r.sessions recipient with
  | none => log_error r (no_session_msg recipient)
  | some session => store r recipient (no_activity_session session now)

/-- C function `chat_session_set_sent` -/
def chat_session_set_sent (r : Registry) (recipient : String) : Registry :=
  match g_hash_table_lookup r.sessions recipient with
  | none => log_error r (no_session_msg recipient)
  | some session => store r recipient { session with sent := true }

/-- C function `chat_session_get_sent` -/
def chat_session_get_sent (r : Registry) (recipient : String) : Bool × Registry :=
  match g_hash_table_lookup r.sessions recipient with
  | none => (false, log_error r (no_session_msg recipient))
  | some session => (session.sent, r)

/-- C function `chat_session_end` -/
def chat_session_end (r : Registry) (recipient : String) : Registry :=
  { r with sessions := g_hash_table_remove r.sessions recipient }

/-- C function `chat_session_inactive` -/
def chat_session_inactive (r : Registry) (recipient : String) : Bool × Registry :=
  match g_hash_table_lookup r.sessions recipient with
  | none => (false, log_error r (no_session_msg recipient))
  | some session => (decide (session.state = CHAT_STATE_INACTIVE), r)

/-- C function `chat_session_gone` -/
def chat_session_gone (r : Registry) (recipient : String) : Bool × Registry :=
  match g_hash_table_lookup r.sessions recipient with
  | none => (false, log_error r (no_session_msg recipient))
  | some session => (decide (session.state = CHAT_STATE_GONE), r)

/-- C function `chat_session_get_recipient_supports` -/
def chat_session_get_recipient_supports (r : Registry) (recipient : String) :
    Bool × Registry :=
  match g_hash_table_lookup r.sessions recipient with
  | none => (false, log_error r (no_session_msg recipient))
  | some session => (session.recipient_supports, r)

/-- C function `chat_session_set_recipient_supports` -/
def chat_session_set_recipient_supports (r : Registry) (recipient : String)
    (recipient_supports : Bool) : Registry :=
  match g_hash_table_lookup r.sessions recipient with
  | none => log_error r (no_session_msg recipient)
  | some session => store r recipient { session with recipient_supports := recipient_supports }

/-! ## Sequences of calls -/

/-- One call into the module, named after the C function it stands for. -/
inductive Op where
  | clear
  | exists_ (recipient : String)
  | start (recipient : String) (recipient_supports : Bool)
  | set_active (recipient : String)
  | no_activity (recipient : String)
  | set_sent (recipient : String)
  | get_sent (recipient : String)
  | end_ (recipient : String)
  | inactive (recipient : String)
  | gone (recipient : String)
  | get_recipient_supports (recipient : String)
  | set_recipient_supports (recipient : String) (recipient_supports : Bool)
  deriving DecidableEq, Repr

/-- The registry after one call issued at clock reading `now`; the value
returned by a query is dropped. -/
def step (r : Registry) (now : ℚ) : Op → Registry
  | Op.clear => chat_sessions_clear r
  | Op.exists_ k => (chat_session_exists r k).2
  | Op.start k x => chat_session_start r k x now
  | Op.set_active k => chat_session_set_active r k now
  | Op.no_activity k => chat_session_no_activity r k now
  | Op.set_sent k => chat_session_set_sent r k
  | Op.get_sent k => (chat_session_get_sent r k).2
  | Op.end_ k => chat_session_end r k
  | Op.inactive k => (chat_session_inactive r k).2
  | Op.gone k => (chat_session_gone r k).2
  | Op.get_recipient_supports k => (chat_session_get_recipient_supports r k).2
  | Op.set_recipient_supports k x => chat_session_set_recipient_supports r k x

/-- The registry after a sequence of calls, each paired with the clock reading
at which it is issued, oldest call first. -/
def run (r : Registry) : List (ℚ × Op) → Registry
  | [] => r
  | (now, op) :: rest => run (step r now op) rest

/-- The recipient a call is keyed by; `chat_sessions_clear` has none. -/
def Op.key : Op → Option String
  | Op.clear => none
  | Op.exists_ k => some k
  | Op.start k _ => some k
  | Op.set_active k => some k
  | Op.no_activity k => some k
  | Op.set_sent k => some k
  | Op.get_sent k => some k
  | Op.end_ k => some k
  | Op.inactive k => some k
  | Op.gone k => some k
  | Op.get_recipient_supports k => some k
  | Op.set_recipient_supports k _ => some k

/-- Whether the call is a `start` for `id`. -/
def Op.starts (id : String) : Op → Bool
  | Op.start k _ => decide (k = id)
  | _ => false

/-- Whether the call is an `end` for `id` or a `clear`. -/
def Op.removes (id : String) : Op → Bool
  | Op.end_ k => decide (k = id)
  | Op.clear => true
  | _ => false

/-- In the words of the specification: the sequence contains a `start` for `id`
that is not followed by a later `end` for `id` or a `clear`. -/
def tracked (id : String) : List (ℚ × Op) → Bool
  | [] => false
  | (_, op) :: rest =>
    (op.starts id && rest.all (fun p => !p.2.removes id)) || tracked id rest

/-- The order of the states in the specification: Started and Active come
first, then Inactive, then Gone. -/
def stateRank : chat_state_t → Nat
  | CHAT_STATE_STARTED => 0
  | CHAT_STATE_ACTIVE => 0
  | CHAT_STATE_INACTIVE => 1
  | CHAT_STATE_GONE => 2

/-- At clock reading `now`, every stored record has a timer, a record in state
Gone has a timer reading more than 600, and a record in state Inactive has a
timer reading more than 120. -/
def clockInvariant (now : ℚ) (r : Registry) : Prop :=
  ∀ id s, g_hash_table_lookup r.sessions id = some s →
    ∃ t, s.active_timer = some t
      ∧ (s.state = CHAT_STATE_GONE → 600 < g_timer_elapsed t now)
      ∧ (s.state = CHAT_STATE_INACTIVE → 120 < g_timer_elapsed t now)

/-! ## Auxiliary facts about the table operations -/

@[simp] theorem lookup_insert_same (table : GHashTable) (key : String) (v : chat_session_t) :
    g_hash_table_lookup (g_hash_table_insert table key v) key = some v := by
  simp [g_hash_table_lookup, g_hash_table_insert]

@[simp] theorem lookup_store_same (r : Registry) (key : String) (v : chat_session_t) :
    g_hash_table_lookup (store r key v).sessions key = some v := by
  simp [g_hash_table_lookup, store]

@[simp] theorem log_store (r : Registry) (key : String) (v : chat_session_t) :
    (store r key v).log = r.log := rfl

@[simp] theorem lookup_remove_same (table : GHashTable) (key : String) :
    g_hash_table_lookup (g_hash_table_remove table key) key = none := by
  simp [g_hash_table_lookup, g_hash_table_remove]

theorem store_store (r : Registry) (key : String) (v w : chat_session_t) :
    store (store r key v) key w = store r key w := by
  simp only [store, Registry.mk.injEq, and_true]
  funext k
  by_cases h : k = key <;> simp [h]

theorem set_active_of_lookup (r : Registry) (id : String) (s : chat_session_t) (now : ℚ)
    (hs : g_hash_table_lookup r.sessions id = some s) :
    chat_session_set_active r id now =
      store r id { s with state := CHAT_STATE_ACTIVE
                          active_timer := g_timer_start s.active_timer now } := by
  simp [chat_session_set_active, hs]

theorem no_activity_of_lookup (r : Registry) (id : String) (s : chat_session_t) (now : ℚ)
    (hs : g_hash_table_lookup r.sessions id = some s) :
    chat_session_no_activity r id now = store r id (no_activity_session s now) := by
  simp [chat_session_no_activity, hs]

theorem set_sent_of_lookup (r : Registry) (id : String) (s : chat_session_t)
    (hs : g_hash_table_lookup r.sessions id = some s) :
    chat_session_set_sent r id = store r id { s with sent := true } := by
  simp [chat_session_set_sent, hs]

theorem lookup_start_same (r : Registry) (id : String) (x : Bool) (now : ℚ) :
    g_hash_table_lookup (chat_session_start r id x now).sessions id =
      some (_chat_session_new id x now) := by
  simp [chat_session_start]

theorem inactive_of_lookup (r : Registry) (id : String) (s : chat_session_t)
    (hs : g_hash_table_lookup r.sessions id = some s) :
    chat_session_inactive r id = (decide (s.state = CHAT_STATE_INACTIVE), r) := by
  simp [chat_session_inactive, hs]

theorem gone_of_lookup (r : Registry) (id : String) (s : chat_session_t)
    (hs : g_hash_table_lookup r.sessions id = some s) :
    chat_session_gone r id = (decide (s.state = CHAT_STATE_GONE), r) := by
  simp [chat_session_gone, hs]

theorem get_sent_of_lookup (r : Registry) (id : String) (s : chat_session_t)
    (hs : g_hash_table_lookup r.sessions id = some s) :
    chat_session_get_sent r id = (s.sent, r) := by
  simp [chat_session_get_sent, hs]

theorem get_recipient_supports_of_lookup (r : Registry) (id : String) (s : chat_session_t)
    (hs : g_hash_table_lookup r.sessions id = some s) :
    chat_session_get_recipient_supports r id = (s.recipient_supports, r) := by
  simp [chat_session_get_recipient_supports, hs]

theorem exists_of_lookup (r : Registry) (id : String) (s : chat_session_t)
    (hs : g_hash_table_lookup r.sessions id = some s) :
    chat_session_exists r id = (true, r) := by
  simp [chat_session_exists, hs]

/-- The poll on a session whose timer shows more than 600 seconds. -/
theorem no_activity_session_gone (s : chat_session_t) (t : GTimer) (now : ℚ)
    (ht : s.active_timer = some t) (h : 600 < g_timer_elapsed t now) :
    no_activity_session s now =
      { s with state := CHAT_STATE_GONE
               sent := if s.state = CHAT_STATE_GONE then s.sent else false } := by
  simp only [no_activity_session, ht, GONE_TIMOUT, gt_iff_lt, h, if_true]
  by_cases hg : s.state = CHAT_STATE_GONE <;> simp [hg]

/-- The poll on a session whose timer shows more than 120 and at most 600 seconds. -/
theorem no_activity_session_inactive (s : chat_session_t) (t : GTimer) (now : ℚ)
    (ht : s.active_timer = some t) (h1 : 120 < g_timer_elapsed t now)
    (h2 : g_timer_elapsed t now ≤ 600) :
    no_activity_session s now =
      { s with state := CHAT_STATE_INACTIVE
               sent := if s.state = CHAT_STATE_INACTIVE then s.sent else false } := by
  have h2n : ¬ 600 < g_timer_elapsed t now := not_lt.mpr h2
  simp only [no_activity_session, ht, GONE_TIMOUT, INACTIVE_TIMOUT, gt_iff_lt, h1, h2n,
    if_true, if_false]
  by_cases hi : s.state = CHAT_STATE_INACTIVE <;> simp [hi]

/-- The poll on a session whose timer shows at most 120 seconds, or that has no timer. -/
theorem no_activity_session_unchanged (s : chat_session_t) (now : ℚ)
    (h : ∀ t, s.active_timer = some t → g_timer_elapsed t now ≤ 120) :
    no_activity_session s now = s := by
  unfold no_activity_session
  cases ht : s.active_timer with
  | none => rfl
  | some t =>
    have h120 : ¬ 120 < g_timer_elapsed t now := not_lt.mpr (h t ht)
    have h600 : ¬ 600 < g_timer_elapsed t now := fun hlt => h120 (by linarith)
    simp [GONE_TIMOUT, INACTIVE_TIMOUT, h120, h600]

/-! ## The inactivity poll -/

/-- C1: for every registry, every id with a session present and every elapsed
time `e` read from that session's timer, `chat_session_no_activity` leaves under
`id` exactly this session: state Gone when `e > 600` (flag kept only if the
state already was Gone), otherwise state Inactive when `e > 120` (flag kept only
if the state already was Inactive), otherwise the session as it was.  Nothing is
logged. -/
theorem no_activity_session_exact (r : Registry) (id : String) (s : chat_session_t)
    (t : GTimer) (now e : ℚ)
    (hs : g_hash_table_lookup r.sessions id = some s)
    (ht : s.active_timer = some t)
    (he : g_timer_elapsed t now = e) :
    g_hash_table_lookup (chat_session_no_activity r id now).sessions id =
        some (if e > 600 then
                { s with state := CHAT_STATE_GONE
                         sent := if s.state = CHAT_STATE_GONE then s.sent else false }
              else if e > 120 then
                { s with state := CHAT_STATE_INACTIVE
                         sent := if s.state = CHAT_STATE_INACTIVE then s.sent else false }
              else s)
      ∧ (chat_session_no_activity r id now).log = r.log := by
  rw [no_activity_of_lookup r id s now hs]
  refine ⟨?_, rfl⟩
  rw [lookup_store_same]
  simp only [no_activity_session, ht, he, GONE_TIMOUT, INACTIVE_TIMOUT]
  by_cases h600 : e > 600
  · by_cases hg : s.state = CHAT_STATE_GONE <;> simp [h600, hg]
  · by_cases h120 : e > 120
    · by_cases hi : s.state = CHAT_STATE_INACTIVE <;> simp [h600, h120, hi]
    · simp [h600, h120]

/-- Witness for C1: a poll 130 seconds after `start` at clock reading 0. -/
theorem no_activity_session_exact_witness :
    g_hash_table_lookup
        (chat_session_start ⟨g_hash_table_new_full, []⟩ "a" true 0).sessions "a" =
        some (_chat_session_new "a" true 0)
      ∧ (_chat_session_new "a" true 0).active_timer = some ⟨0⟩
      ∧ g_timer_elapsed ⟨0⟩ 130 = 130
      ∧ g_hash_table_lookup
          (chat_session_no_activity
            (chat_session_start ⟨g_hash_table_new_full, []⟩ "a" true 0) "a" 130).sessions "a" =
          some { recipient := "a", recipient_supports := true, state := CHAT_STATE_INACTIVE,
                 active_timer := some ⟨0⟩, sent := false } := by
  have hs := lookup_start_same ⟨g_hash_table_new_full, []⟩ "a" true 0
  have he : g_timer_elapsed ⟨0⟩ 130 = 130 := by simp [g_timer_elapsed]
  refine ⟨hs, rfl, he, ?_⟩
  have h := (no_activity_session_exact _ "a" _ ⟨0⟩ 130 130 hs rfl he).1
  rw [h]
  norm_num [_chat_session_new, g_timer_new]

/-! ## Scenarios -/

/-- C2: time-threshold scenario.  For every id, capability flag and elapsed time
`e` with `120 < e ≤ 600`: after `start`, `set_active`, an optional `set_sent`,
and a poll `e` seconds after the `set_active`, the session is reported inactive,
not gone, and its notification flag is false.  The queries leave the registry
as it is. -/
theorem time_threshold_scenario (r : Registry) (id : String) (flag markSent : Bool)
    (t0 t1 e : ℚ) (h1 : 120 < e) (h2 : e ≤ 600) :
    let r1 := chat_session_set_active (chat_session_start r id flag t0) id t1
    let r2 := if markSent then chat_session_set_sent r1 id else r1
    let r3 := chat_session_no_activity r2 id (t1 + e)
    chat_session_inactive r3 id = (true, r3)
      ∧ chat_session_gone r3 id = (false, r3)
      ∧ chat_session_get_sent r3 id = (false, r3) := by
  have h2n : ¬ 600 < e := not_lt.mpr h2
  cases markSent <;>
    simp [chat_session_inactive, chat_session_gone, chat_session_get_sent,
      chat_session_no_activity, chat_session_set_sent, chat_session_set_active,
      chat_session_start, store, g_hash_table_lookup, g_hash_table_insert,
      no_activity_session, g_timer_start, g_timer_elapsed, _chat_session_new, g_timer_new,
      GONE_TIMOUT, INACTIVE_TIMOUT, h1, h2n]

/-- Witness for C2: id "a", flag true, 130 seconds, with the flag set in between. -/
theorem time_threshold_scenario_witness :
    (120 : ℚ) < 130 ∧ (130 : ℚ) ≤ 600
      ∧ (chat_session_inactive
          (chat_session_no_activity
            (chat_session_set_sent
              (chat_session_set_active
                (chat_session_start ⟨g_hash_table_new_full, []⟩ "a" true 0) "a" 5) "a")
            "a" (5 + 130)) "a").1 = true
      ∧ (chat_session_gone
          (chat_session_no_activity
            (chat_session_set_sent
              (chat_session_set_active
                (chat_session_start ⟨g_hash_table_new_full, []⟩ "a" true 0) "a" 5) "a")
            "a" (5 + 130)) "a").1 = false
      ∧ (chat_session_get_sent
          (chat_session_no_activity
            (chat_session_set_sent
              (chat_session_set_active
                (chat_session_start ⟨g_hash_table_new_full, []⟩ "a" true 0) "a" 5) "a")
            "a" (5 + 130)) "a").1 = false := by
  have h := time_threshold_scenario ⟨g_hash_table_new_full, []⟩ "a" true true 0 5 130
    (by norm_num) (by norm_num)
  simp only [if_true] at h
  exact ⟨by norm_num, by norm_num, by rw [h.1], by rw [h.2.1], by rw [h.2.2]⟩

/-- C3: continue scenario.  For every id whose session is in state Inactive
(whatever its notification flag) and every elapsed time `e > 600` read from its
timer, the poll makes the session gone, not inactive, with the notification flag
false. -/
theorem continue_scenario (r : Registry) (id : String) (s : chat_session_t) (t : GTimer)
    (now e : ℚ)
    (hs : g_hash_table_lookup r.sessions id = some s)
    (hst : s.state = CHAT_STATE_INACTIVE)
    (ht : s.active_timer = some t)
    (he : g_timer_elapsed t now = e) (h : 600 < e) :
    chat_session_gone (chat_session_no_activity r id now) id =
        (true, chat_session_no_activity r id now)
      ∧ chat_session_inactive (chat_session_no_activity r id now) id =
        (false, chat_session_no_activity r id now)
      ∧ chat_session_get_sent (chat_session_no_activity r id now) id =
        (false, chat_session_no_activity r id now) := by
  have hl : g_hash_table_lookup (chat_session_no_activity r id now).sessions id =
      some { s with state := CHAT_STATE_GONE, sent := false } := by
    rw [no_activity_of_lookup r id s now hs, lookup_store_same,
      no_activity_session_gone s t now ht (by rw [he]; exact h)]
    simp [hst]
  refine ⟨?_, ?_, ?_⟩
  · rw [gone_of_lookup _ id _ hl]; simp
  · rw [inactive_of_lookup _ id _ hl]; simp
  · rw [get_sent_of_lookup _ id _ hl]

/-- Witness for C3: "a" is started at 0, active at 5, polled at 135 (inactive),
flagged as notified, and polled again at 615, i.e. 610 seconds after the reset. -/
theorem continue_scenario_witness :
    g_hash_table_lookup
        (chat_session_set_sent (chat_session_no_activity (chat_session_set_active
          (chat_session_start ⟨g_hash_table_new_full, []⟩ "a" true 0) "a" 5) "a" 135)
          "a").sessions "a" =
        some { recipient := "a", recipient_supports := true, state := CHAT_STATE_INACTIVE,
               active_timer := some ⟨5⟩, sent := true }
      ∧ g_timer_elapsed ⟨5⟩ 615 = 610 ∧ (600 : ℚ) < 610
      ∧ (chat_session_gone (chat_session_no_activity
          (chat_session_set_sent (chat_session_no_activity (chat_session_set_active
            (chat_session_start ⟨g_hash_table_new_full, []⟩ "a" true 0) "a" 5) "a" 135) "a")
          "a" 615) "a").1 = true
      ∧ (chat_session_inactive (chat_session_no_activity
          (chat_session_set_sent (chat_session_no_activity (chat_session_set_active
            (chat_session_start ⟨g_hash_table_new_full, []⟩ "a" true 0) "a" 5) "a" 135) "a")
          "a" 615) "a").1 = false
      ∧ (chat_session_get_sent (chat_session_no_activity
          (chat_session_set_sent (chat_session_no_activity (chat_session_set_active
            (chat_session_start ⟨g_hash_table_new_full, []⟩ "a" true 0) "a" 5) "a" 135) "a")
          "a" 615) "a").1 = false := by
  have hs : g_hash_table_lookup
      (chat_session_set_sent (chat_session_no_activity (chat_session_set_active
        (chat_session_start ⟨g_hash_table_new_full, []⟩ "a" true 0) "a" 5) "a" 135)
        "a").sessions "a" =
      some { recipient := "a", recipient_supports := true, state := CHAT_STATE_INACTIVE,
             active_timer := some ⟨5⟩, sent := true } := by
    simp [chat_session_no_activity, chat_session_set_sent, chat_session_set_active,
      chat_session_start, store, g_hash_table_lookup, g_hash_table_insert,
      no_activity_session, g_timer_start, g_timer_elapsed, _chat_session_new, g_timer_new,
      GONE_TIMOUT, INACTIVE_TIMOUT]
    norm_num
  have he : g_timer_elapsed ⟨5⟩ 615 = 610 := by norm_num [g_timer_elapsed]
  have h := continue_scenario _ "a" _ ⟨5⟩ 615 610 hs rfl rfl he (by norm_num)
  exact ⟨hs, he, by norm_num, by rw [h.1], by rw [h.2.1], by rw [h.2.2]⟩

/-- C4: re-activity scenario.  For every id whose session is present, in state
Gone or in any other state and with any notification flag: `set_active` makes
the state Active (neither inactive nor gone), and a poll less than 120 seconds
after that `set_active` leaves the session as it is, so the state stays Active
and the flag keeps its value. -/
theorem reactivity_scenario (r : Registry) (id : String) (s : chat_session_t) (t1 e : ℚ)
    (hs : g_hash_table_lookup r.sessions id = some s)
    (he : e < 120) :
    g_hash_table_lookup (chat_session_set_active r id t1).sessions id =
        some { s with state := CHAT_STATE_ACTIVE
                      active_timer := g_timer_start s.active_timer t1 }
      ∧ chat_session_inactive (chat_session_set_active r id t1) id =
        (false, chat_session_set_active r id t1)
      ∧ chat_session_gone (chat_session_set_active r id t1) id =
        (false, chat_session_set_active r id t1)
      ∧ g_hash_table_lookup
          (chat_session_no_activity (chat_session_set_active r id t1) id (t1 + e)).sessions id =
        some { s with state := CHAT_STATE_ACTIVE
                      active_timer := g_timer_start s.active_timer t1 }
      ∧ (chat_session_get_sent
          (chat_session_no_activity (chat_session_set_active r id t1) id (t1 + e)) id).1 =
        s.sent := by
  have hl1 : g_hash_table_lookup (chat_session_set_active r id t1).sessions id =
      some { s with state := CHAT_STATE_ACTIVE
                    active_timer := g_timer_start s.active_timer t1 } := by
    rw [set_active_of_lookup r id s t1 hs, lookup_store_same]
  have hl2 : g_hash_table_lookup
      (chat_session_no_activity (chat_session_set_active r id t1) id (t1 + e)).sessions id =
      some { s with state := CHAT_STATE_ACTIVE
                    active_timer := g_timer_start s.active_timer t1 } := by
    rw [no_activity_of_lookup _ id _ _ hl1, lookup_store_same,
      no_activity_session_unchanged]
    intro t ht
    have ht1 : t = ⟨t1⟩ := by
      cases hta : s.active_timer with
      | none => simp [g_timer_start, hta] at ht
      | some t0 =>
        simp only [g_timer_start, hta, Option.some.injEq] at ht
        exact ht.symm
    subst ht1
    simp only [g_timer_elapsed, add_sub_cancel_left]
    exact le_of_lt he
  refine ⟨hl1, ?_, ?_, hl2, ?_⟩
  · rw [inactive_of_lookup _ id _ hl1]; simp
  · rw [gone_of_lookup _ id _ hl1]; simp
  · rw [get_sent_of_lookup _ id _ hl2]

/-- Witness for C4: "a" is started at 0, polled at 700 (gone), flagged as
notified, set active at 800 and polled at 850. -/
theorem reactivity_scenario_witness :
    g_hash_table_lookup
        (chat_session_set_sent (chat_session_no_activity
          (chat_session_start ⟨g_hash_table_new_full, []⟩ "a" true 0) "a" 700)
          "a").sessions "a" =
        some { recipient := "a", recipient_supports := true, state := CHAT_STATE_GONE,
               active_timer := some ⟨0⟩, sent := true }
      ∧ (50 : ℚ) < 120
      ∧ g_hash_table_lookup
          (chat_session_no_activity (chat_session_set_active
            (chat_session_set_sent (chat_session_no_activity
              (chat_session_start ⟨g_hash_table_new_full, []⟩ "a" true 0) "a" 700) "a")
            "a" 800) "a" (800 + 50)).sessions "a" =
        some { recipient := "a", recipient_supports := true, state := CHAT_STATE_ACTIVE,
               active_timer := some ⟨800⟩, sent := true } := by
  have hs : g_hash_table_lookup
      (chat_session_set_sent (chat_session_no_activity
        (chat_session_start ⟨g_hash_table_new_full, []⟩ "a" true 0) "a" 700)
        "a").sessions "a" =
      some { recipient := "a", recipient_supports := true, state := CHAT_STATE_GONE,
             active_timer := some ⟨0⟩, sent := true } := by
    simp [chat_session_no_activity, chat_session_set_sent,
      chat_session_start, store, g_hash_table_lookup, g_hash_table_insert,
      no_activity_session, g_timer_elapsed, _chat_session_new, g_timer_new,
      GONE_TIMOUT]
    norm_num
  have h := reactivity_scenario _ "a" _ 800 50 hs (by norm_num)
  exact ⟨hs, by norm_num, h.2.2.2.1⟩

/-! ## Absent sessions -/

/-- C5, as stated, fails for `chat_session_exists`: on the empty registry the
query for "a" returns false and hands nothing to the log. -/
theorem exists_absent_reports_nothing :
    g_hash_table_lookup (Registry.mk g_hash_table_new_full []).sessions "a" = none
      ∧ (chat_session_exists ⟨g_hash_table_new_full, []⟩ "a").1 = false
      ∧ (chat_session_exists ⟨g_hash_table_new_full, []⟩ "a").2.log = []
      ∧ ¬ ∃ m, (chat_session_exists ⟨g_hash_table_new_full, []⟩ "a").2.log = [] ++ [m] := by
  refine ⟨rfl, rfl, rfl, ?_⟩
  rintro ⟨m, hm⟩
  simp [chat_session_exists, g_hash_table_lookup, g_hash_table_new_full] at hm

/-- C5, amended: for every registry and every id with no session in it, each of
`chat_session_inactive`, `chat_session_gone`, `chat_session_get_recipient_supports`
and `chat_session_get_sent` returns false, keeps the table and appends exactly
one message to the log; `chat_session_exists` returns false and changes neither
the table nor the log. -/
theorem absent_session_queries (r : Registry) (id : String)
    (h : g_hash_table_lookup r.sessions id = none) :
    chat_session_inactive r id =
        (false, ⟨r.sessions, r.log ++ ["No chat session found for " ++ id ++ "."]⟩)
      ∧ chat_session_gone r id =
        (false, ⟨r.sessions, r.log ++ ["No chat session found for " ++ id ++ "."]⟩)
      ∧ chat_session_get_recipient_supports r id =
        (false, ⟨r.sessions, r.log ++ ["No chat session found for " ++ id ++ "."]⟩)
      ∧ chat_session_get_sent r id =
        (false, ⟨r.sessions, r.log ++ ["No chat session found for " ++ id ++ "."]⟩)
      ∧ chat_session_exists r id = (false, r) := by
  simp [chat_session_inactive, chat_session_gone, chat_session_get_recipient_supports,
    chat_session_get_sent, chat_session_exists, h, log_error, no_session_msg]

/-- Witness for C5 (amended): the queries for "b" when only "a" is tracked. -/
theorem absent_session_queries_witness :
    g_hash_table_lookup
        (chat_session_start ⟨g_hash_table_new_full, []⟩ "a" true 0).sessions "b" = none
      ∧ (chat_session_gone
          (chat_session_start ⟨g_hash_table_new_full, []⟩ "a" true 0) "b").1 = false
      ∧ (chat_session_gone
          (chat_session_start ⟨g_hash_table_new_full, []⟩ "a" true 0) "b").2.log =
        ["No chat session found for b."]
      ∧ (chat_session_exists
          (chat_session_start ⟨g_hash_table_new_full, []⟩ "a" true 0) "b").2.log = [] := by
  have hb : g_hash_table_lookup
      (chat_session_start ⟨g_hash_table_new_full, []⟩ "a" true 0).sessions "b" = none := by
    simp [chat_session_start, g_hash_table_lookup, g_hash_table_insert, g_hash_table_new_full]
  have h := absent_session_queries _ "b" hb
  refine ⟨hb, by rw [h.2.1], ?_, by rw [h.2.2.2.2]; rfl⟩
  rw [h.2.1]
  simp [chat_session_start]

/-! ## Lifecycle -/

/-- C6: for every registry (with or without a session for `id`), every id, flag
and clock reading: after `chat_session_start` a session for `id` exists, it is
the one and only record stored under `id`, namely the fresh record with state
Started, the given flag, the notification flag false and a timer showing zero
elapsed time; and a `start` directly after another `start` for the same id gives
the same registry as the second `start` alone. -/
theorem start_overwrites (r : Registry) (id : String) (x x1 : Bool) (now t1 : ℚ) :
    chat_session_exists (chat_session_start r id x now) id =
        (true, chat_session_start r id x now)
      ∧ g_hash_table_lookup (chat_session_start r id x now).sessions id =
        some { recipient := id, recipient_supports := x, state := CHAT_STATE_STARTED,
               active_timer := some ⟨now⟩, sent := false }
      ∧ (∃! s, g_hash_table_lookup (chat_session_start r id x now).sessions id = some s)
      ∧ chat_session_get_recipient_supports (chat_session_start r id x now) id =
        (x, chat_session_start r id x now)
      ∧ chat_session_get_sent (chat_session_start r id x now) id =
        (false, chat_session_start r id x now)
      ∧ g_timer_elapsed ⟨now⟩ now = 0
      ∧ chat_session_start (chat_session_start r id x1 t1) id x now =
        chat_session_start r id x now := by
  have hl := lookup_start_same r id x now
  refine ⟨exists_of_lookup _ id _ hl, hl, ⟨_, hl, ?_⟩, ?_, ?_, ?_, ?_⟩
  · intro s hs
    rw [hl] at hs
    exact (Option.some.inj hs).symm
  · rw [get_recipient_supports_of_lookup _ id _ hl]; rfl
  · rw [get_sent_of_lookup _ id _ hl]; rfl
  · simp [g_timer_elapsed]
  · simp only [chat_session_start, Registry.mk.injEq, and_true]
    funext k
    by_cases hk : k = id <;> simp [g_hash_table_insert, hk]

/-- C7: for every registry and id: after `chat_session_end` no session for `id`
exists; when there was none the registry (table and log) is unchanged; the log
is never touched; and ending twice equals ending once. -/
theorem end_idempotent (r : Registry) (id : String) :
    chat_session_exists (chat_session_end r id) id = (false, chat_session_end r id)
      ∧ (g_hash_table_lookup r.sessions id = none → chat_session_end r id = r)
      ∧ (chat_session_end r id).log = r.log
      ∧ chat_session_end (chat_session_end r id) id = chat_session_end r id := by
  refine ⟨?_, ?_, rfl, ?_⟩
  · simp [chat_session_exists, chat_session_end]
  · intro h
    cases r with
    | mk sessions log =>
      simp only [chat_session_end, Registry.mk.injEq, and_true]
      funext k
      by_cases hk : k = id
      · subst hk; simpa [g_hash_table_lookup, g_hash_table_remove] using h.symm
      · simp [g_hash_table_remove, hk]
  · simp only [chat_session_end, Registry.mk.injEq, and_true]
    funext k
    by_cases hk : k = id <;> simp [g_hash_table_remove, hk]

/-- Witness for C7: ending "b" when only "a" is tracked changes nothing. -/
theorem end_idempotent_witness :
    g_hash_table_lookup
        (chat_session_start ⟨g_hash_table_new_full, []⟩ "a" true 0).sessions "b" = none
      ∧ chat_session_end (chat_session_start ⟨g_hash_table_new_full, []⟩ "a" true 0) "b" =
        chat_session_start ⟨g_hash_table_new_full, []⟩ "a" true 0 := by
  have hb : g_hash_table_lookup
      (chat_session_start ⟨g_hash_table_new_full, []⟩ "a" true 0).sessions "b" = none := by
    simp [chat_session_start, g_hash_table_lookup, g_hash_table_insert, g_hash_table_new_full]
  exact ⟨hb, (end_idempotent _ "b").2.1 hb⟩

/-- C8: for every registry, after `chat_sessions_clear` no id has a session, the
table is the empty one, clearing twice equals clearing once, and clearing an
already empty registry returns it as it is. -/
theorem clear_removes_all (r : Registry) (id : String) :
    chat_session_exists (chat_sessions_clear r) id = (false, chat_sessions_clear r)
      ∧ (chat_sessions_clear r).sessions = g_hash_table_new_full
      ∧ chat_sessions_clear (chat_sessions_clear r) = chat_sessions_clear r
      ∧ chat_sessions_clear ⟨g_hash_table_new_full, r.log⟩ = ⟨g_hash_table_new_full, r.log⟩ :=
  ⟨rfl, rfl, rfl, rfl⟩

/-! ## Activity and the notification flag -/

/-- C9: for every registry and every id with a session present, in whichever of
the four states, whose timer exists: `chat_session_set_active` stores the same
record with state Active and a timer restarted at the current clock reading, so
its elapsed time is zero; the capability flag (and every other field) is as
before. -/
theorem set_active_resets_timer (r : Registry) (id : String) (s : chat_session_t)
    (t : GTimer) (now : ℚ)
    (hs : g_hash_table_lookup r.sessions id = some s)
    (ht : s.active_timer = some t) :
    g_hash_table_lookup (chat_session_set_active r id now).sessions id =
        some { recipient := s.recipient, recipient_supports := s.recipient_supports,
               state := CHAT_STATE_ACTIVE, active_timer := some ⟨now⟩, sent := s.sent }
      ∧ g_timer_elapsed ⟨now⟩ now = 0
      ∧ (chat_session_get_recipient_supports (chat_session_set_active r id now) id).1 =
        (chat_session_get_recipient_supports r id).1
      ∧ (chat_session_set_active r id now).log = r.log := by
  have hl : g_hash_table_lookup (chat_session_set_active r id now).sessions id =
      some { recipient := s.recipient, recipient_supports := s.recipient_supports,
             state := CHAT_STATE_ACTIVE, active_timer := some ⟨now⟩, sent := s.sent } := by
    rw [set_active_of_lookup r id s now hs, lookup_store_same]
    simp [g_timer_start, ht]
  refine ⟨hl, by simp [g_timer_elapsed], ?_, ?_⟩
  · rw [get_recipient_supports_of_lookup _ id _ hl, get_recipient_supports_of_lookup r id s hs]
  · rw [set_active_of_lookup r id s now hs]; rfl

/-- Witness for C9: "a", gone and flagged as notified, becomes active at 800. -/
theorem set_active_resets_timer_witness :
    g_hash_table_lookup
        (chat_session_set_sent (chat_session_no_activity
          (chat_session_start ⟨g_hash_table_new_full, []⟩ "a" true 0) "a" 700)
          "a").sessions "a" =
        some { recipient := "a", recipient_supports := true, state := CHAT_STATE_GONE,
               active_timer := some ⟨0⟩, sent := true }
      ∧ g_hash_table_lookup
          (chat_session_set_active
            (chat_session_set_sent (chat_session_no_activity
              (chat_session_start ⟨g_hash_table_new_full, []⟩ "a" true 0) "a" 700) "a")
            "a" 800).sessions "a" =
        some { recipient := "a", recipient_supports := true, state := CHAT_STATE_ACTIVE,
               active_timer := some ⟨800⟩, sent := true } := by
  have hs : g_hash_table_lookup
      (chat_session_set_sent (chat_session_no_activity
        (chat_session_start ⟨g_hash_table_new_full, []⟩ "a" true 0) "a" 700)
        "a").sessions "a" =
      some { recipient := "a", recipient_supports := true, state := CHAT_STATE_GONE,
             active_timer := some ⟨0⟩, sent := true } := by
    simp [chat_session_no_activity, chat_session_set_sent,
      chat_session_start, store, g_hash_table_lookup, g_hash_table_insert,
      no_activity_session, g_timer_elapsed, _chat_session_new, g_timer_new,
      GONE_TIMOUT]
    norm_num
  exact ⟨hs, (set_active_resets_timer _ "a" _ ⟨0⟩ 800 hs rfl).1⟩

/-- C10, as stated, fails for `chat_session_set_active`: "a" is started at 0,
polled at 700 (gone) and flagged as notified; `set_active` at 800 changes the
state from Gone to Active and the notification flag is still true. -/
theorem set_active_keeps_sent :
    g_hash_table_lookup
        (chat_session_set_sent (chat_session_no_activity
          (chat_session_start (chat_sessions_init ⟨g_hash_table_new_full, []⟩) "a" true 0)
          "a" 700) "a").sessions "a" =
        some { recipient := "a", recipient_supports := true, state := CHAT_STATE_GONE,
               active_timer := some ⟨0⟩, sent := true }
      ∧ g_hash_table_lookup
          (chat_session_set_active
            (chat_session_set_sent (chat_session_no_activity
              (chat_session_start (chat_sessions_init ⟨g_hash_table_new_full, []⟩) "a" true 0)
              "a" 700) "a")
            "a" 800).sessions "a" =
        some { recipient := "a", recipient_supports := true, state := CHAT_STATE_ACTIVE,
               active_timer := some ⟨800⟩, sent := true }
      ∧ (chat_session_get_sent
          (chat_session_set_active
            (chat_session_set_sent (chat_session_no_activity
              (chat_session_start (chat_sessions_init ⟨g_hash_table_new_full, []⟩) "a" true 0)
              "a" 700) "a")
            "a" 800) "a").1 = true := by
  refine ⟨?_, ?_, ?_⟩ <;>
  · simp [chat_session_get_sent, chat_session_set_active, chat_session_no_activity,
      chat_session_set_sent, chat_session_start, chat_sessions_init, store,
      g_hash_table_lookup, g_hash_table_insert, no_activity_session, g_timer_start,
      g_timer_elapsed, _chat_session_new, g_timer_new, GONE_TIMOUT]
    try norm_num

/-- C10, amended: for every registry and every id with a session present, if the
state after `chat_session_no_activity` differs from the state before, the
notification flag after it is false; `chat_session_set_active` makes the state
Active and leaves the notification flag as it was. -/
theorem poll_state_change_clears_sent (r : Registry) (id : String) (s : chat_session_t)
    (now : ℚ) (hs : g_hash_table_lookup r.sessions id = some s) :
    (∀ s1, g_hash_table_lookup (chat_session_no_activity r id now).sessions id = some s1 →
        s1.state ≠ s.state → s1.sent = false)
      ∧ (∀ s1, g_hash_table_lookup (chat_session_set_active r id now).sessions id = some s1 →
        s1.state = CHAT_STATE_ACTIVE ∧ s1.sent = s.sent) := by
  constructor
  · intro s1 h1 hne
    rw [no_activity_of_lookup r id s now hs, lookup_store_same] at h1
    have h1 := (Option.some.inj h1).symm
    subst h1
    revert hne
    unfold no_activity_session
    cases ht : s.active_timer with
    | none => intro hne; exact absurd rfl hne
    | some t =>
      simp only []
      by_cases h600 : g_timer_elapsed t now > GONE_TIMOUT
      · by_cases hg : s.state = CHAT_STATE_GONE <;> simp [h600, hg]
      · by_cases h120 : g_timer_elapsed t now > INACTIVE_TIMOUT
        · by_cases hi : s.state = CHAT_STATE_INACTIVE <;> simp [h600, h120, hi]
        · simp [h600, h120]
  · intro s1 h1
    rw [set_active_of_lookup r id s now hs, lookup_store_same] at h1
    have h1 := (Option.some.inj h1).symm
    subst h1
    exact ⟨rfl, rfl⟩

/-- Witness for C10 (amended): the poll at 130 turns the started session "a"
inactive with the flag false. -/
theorem poll_state_change_clears_sent_witness :
    g_hash_table_lookup
        (chat_session_start ⟨g_hash_table_new_full, []⟩ "a" true 0).sessions "a" =
        some (_chat_session_new "a" true 0)
      ∧ (∀ s1, g_hash_table_lookup
            (chat_session_no_activity
              (chat_session_start ⟨g_hash_table_new_full, []⟩ "a" true 0) "a" 130).sessions
              "a" = some s1 →
          s1.state ≠ (_chat_session_new "a" true 0).state → s1.sent = false) :=
  ⟨lookup_start_same _ "a" true 0,
    (poll_state_change_clears_sent _ "a" _ 130 (lookup_start_same _ "a" true 0)).1⟩

/-! ## Auxiliary facts about single calls -/

theorem lookup_store (r : Registry) (k id : String) (v : chat_session_t) :
    g_hash_table_lookup (store r k v).sessions id =
      if id = k then some v else g_hash_table_lookup r.sessions id := rfl

theorem sessions_log_error (r : Registry) (m : String) :
    (log_error r m).sessions = r.sessions := rfl

theorem lookup_set_active (r : Registry) (k id : String) (now : ℚ) :
    g_hash_table_lookup (chat_session_set_active r k now).sessions id =
      if id = k then
        (g_hash_table_lookup r.sessions k).map fun s =>
          { s with state := CHAT_STATE_ACTIVE
                   active_timer := g_timer_start s.active_timer now }
      else g_hash_table_lookup r.sessions id := by
  unfold chat_session_set_active
  cases h : g_hash_table_lookup r.sessions k with
  | none => by_cases hk : id = k <;> simp [sessions_log_error, hk, h]
  | some s => by_cases hk : id = k <;> simp [lookup_store, hk]

theorem lookup_no_activity (r : Registry) (k id : String) (now : ℚ) :
    g_hash_table_lookup (chat_session_no_activity r k now).sessions id =
      if id = k then
        (g_hash_table_lookup r.sessions k).map fun s => no_activity_session s now
      else g_hash_table_lookup r.sessions id := by
  unfold chat_session_no_activity
  cases h : g_hash_table_lookup r.sessions k with
  | none => by_cases hk : id = k <;> simp [sessions_log_error, hk, h]
  | some s => by_cases hk : id = k <;> simp [lookup_store, hk]

theorem lookup_set_sent (r : Registry) (k id : String) :
    g_hash_table_lookup (chat_session_set_sent r k).sessions id =
      if id = k then
        (g_hash_table_lookup r.sessions k).map fun s => { s with sent := true }
      else g_hash_table_lookup r.sessions id := by
  unfold chat_session_set_sent
  cases h : g_hash_table_lookup r.sessions k with
  | none => by_cases hk : id = k <;> simp [sessions_log_error, hk, h]
  | some s => by_cases hk : id = k <;> simp [lookup_store, hk]

theorem lookup_set_recipient_supports (r : Registry) (k id : String) (x : Bool) :
    g_hash_table_lookup (chat_session_set_recipient_supports r k x).sessions id =
      if id = k then
        (g_hash_table_lookup r.sessions k).map fun s => { s with recipient_supports := x }
      else g_hash_table_lookup r.sessions id := by
  unfold chat_session_set_recipient_supports
  cases h : g_hash_table_lookup r.sessions k with
  | none => by_cases hk : id = k <;> simp [sessions_log_error, hk, h]
  | some s => by_cases hk : id = k <;> simp [lookup_store, hk]

theorem lookup_start (r : Registry) (k id : String) (x : Bool) (now : ℚ) :
    g_hash_table_lookup (chat_session_start r k x now).sessions id =
      if id = k then some (_chat_session_new k x now)
      else g_hash_table_lookup r.sessions id := rfl

theorem lookup_end (r : Registry) (k id : String) :
    g_hash_table_lookup (chat_session_end r k).sessions id =
      if id = k then none else g_hash_table_lookup r.sessions id := rfl

theorem lookup_clear (r : Registry) (id : String) :
    g_hash_table_lookup (chat_sessions_clear r).sessions id = none := rfl

theorem sessions_exists (r : Registry) (k : String) :
    (chat_session_exists r k).2 = r := by
  unfold chat_session_exists
  cases g_hash_table_lookup r.sessions k <;> rfl

theorem sessions_get_sent (r : Registry) (k : String) :
    (chat_session_get_sent r k).2.sessions = r.sessions := by
  unfold chat_session_get_sent
  cases g_hash_table_lookup r.sessions k <;> rfl

theorem sessions_inactive (r : Registry) (k : String) :
    (chat_session_inactive r k).2.sessions = r.sessions := by
  unfold chat_session_inactive
  cases g_hash_table_lookup r.sessions k <;> rfl

theorem sessions_gone (r : Registry) (k : String) :
    (chat_session_gone r k).2.sessions = r.sessions := by
  unfold chat_session_gone
  cases g_hash_table_lookup r.sessions k <;> rfl

theorem sessions_get_recipient_supports (r : Registry) (k : String) :
    (chat_session_get_recipient_supports r k).2.sessions = r.sessions := by
  unfold chat_session_get_recipient_supports
  cases g_hash_table_lookup r.sessions k <;> rfl

/-- The value of each query is a function of the record found under the key. -/
theorem query_values (r : Registry) (k : String) :
    (chat_session_exists r k).1 = (g_hash_table_lookup r.sessions k).isSome
      ∧ (chat_session_inactive r k).1 =
        ((g_hash_table_lookup r.sessions k).map fun s =>
          decide (s.state = CHAT_STATE_INACTIVE)).getD false
      ∧ (chat_session_gone r k).1 =
        ((g_hash_table_lookup r.sessions k).map fun s =>
          decide (s.state = CHAT_STATE_GONE)).getD false
      ∧ (chat_session_get_recipient_supports r k).1 =
        ((g_hash_table_lookup r.sessions k).map fun s => s.recipient_supports).getD false
      ∧ (chat_session_get_sent r k).1 =
        ((g_hash_table_lookup r.sessions k).map fun s => s.sent).getD false := by
  unfold chat_session_exists chat_session_inactive chat_session_gone
    chat_session_get_recipient_supports chat_session_get_sent
  cases g_hash_table_lookup r.sessions k <;> simp

/-! ## Mutators on absent and present sessions -/

/-- C11: for every registry and id with no session, each of
`chat_session_set_active`, `chat_session_no_activity`, `chat_session_set_sent`
and `chat_session_set_recipient_supports` keeps the table as it is and appends
exactly the one message "No chat session found for " followed by the id and a
full stop; and when a session for the id is present none of them adds anything
to the log. -/
theorem absent_session_mutators (r : Registry) (id : String) (b : Bool) (now : ℚ) :
    (g_hash_table_lookup r.sessions id = none →
        chat_session_set_active r id now =
          ⟨r.sessions, r.log ++ ["No chat session found for " ++ id ++ "."]⟩
        ∧ chat_session_no_activity r id now =
          ⟨r.sessions, r.log ++ ["No chat session found for " ++ id ++ "."]⟩
        ∧ chat_session_set_sent r id =
          ⟨r.sessions, r.log ++ ["No chat session found for " ++ id ++ "."]⟩
        ∧ chat_session_set_recipient_supports r id b =
          ⟨r.sessions, r.log ++ ["No chat session found for " ++ id ++ "."]⟩)
      ∧ (g_hash_table_lookup r.sessions id ≠ none →
        (chat_session_set_active r id now).log = r.log
        ∧ (chat_session_no_activity r id now).log = r.log
        ∧ (chat_session_set_sent r id).log = r.log
        ∧ (chat_session_set_recipient_supports r id b).log = r.log) := by
  constructor
  · intro h
    simp [chat_session_set_active, chat_session_no_activity, chat_session_set_sent,
      chat_session_set_recipient_supports, h, log_error, no_session_msg]
  · intro h
    cases hs : g_hash_table_lookup r.sessions id with
    | none => exact absurd hs h
    | some s =>
      simp [chat_session_set_active, chat_session_no_activity, chat_session_set_sent,
        chat_session_set_recipient_supports, hs]

/-- Witness for C11: with only "a" tracked, `set_sent` for "b" logs the message
for "b" and `set_sent` for "a" logs nothing. -/
theorem absent_session_mutators_witness :
    g_hash_table_lookup
        (chat_session_start ⟨g_hash_table_new_full, []⟩ "a" true 0).sessions "b" = none
      ∧ (chat_session_set_sent
          (chat_session_start ⟨g_hash_table_new_full, []⟩ "a" true 0) "b").log =
        ["No chat session found for b."]
      ∧ g_hash_table_lookup
        (chat_session_start ⟨g_hash_table_new_full, []⟩ "a" true 0).sessions "a" ≠ none
      ∧ (chat_session_set_sent
          (chat_session_start ⟨g_hash_table_new_full, []⟩ "a" true 0) "a").log = [] := by
  have hb : g_hash_table_lookup
      (chat_session_start ⟨g_hash_table_new_full, []⟩ "a" true 0).sessions "b" = none := by
    simp [chat_session_start, g_hash_table_lookup, g_hash_table_insert, g_hash_table_new_full]
  have ha : g_hash_table_lookup
      (chat_session_start ⟨g_hash_table_new_full, []⟩ "a" true 0).sessions "a" ≠ none := by
    simp [chat_session_start]
  refine ⟨hb, ?_, ha, ?_⟩
  · rw [((absent_session_mutators _ "b" true 0).1 hb).2.2.1]
    simp [chat_session_start]
  · rw [((absent_session_mutators _ "a" true 0).2 ha).2.2.1]
    rfl

/-- C13: setter and getter of the two flags.  For every registry and id with a
session present: `get_sent` right after `set_sent` is true, and
`get_recipient_supports` right after `set_recipient_supports` with `b` is `b`;
`set_sent` stores the old record with only `sent` replaced, and
`set_recipient_supports` stores it with only `recipient_supports` replaced. -/
theorem flag_setters_getters (r : Registry) (id : String) (s : chat_session_t) (b : Bool)
    (hs : g_hash_table_lookup r.sessions id = some s) :
    chat_session_get_sent (chat_session_set_sent r id) id =
        (true, chat_session_set_sent r id)
      ∧ g_hash_table_lookup (chat_session_set_sent r id).sessions id =
        some { recipient := s.recipient, recipient_supports := s.recipient_supports,
               state := s.state, active_timer := s.active_timer, sent := true }
      ∧ chat_session_get_recipient_supports
          (chat_session_set_recipient_supports r id b) id =
        (b, chat_session_set_recipient_supports r id b)
      ∧ g_hash_table_lookup (chat_session_set_recipient_supports r id b).sessions id =
        some { recipient := s.recipient, recipient_supports := b,
               state := s.state, active_timer := s.active_timer, sent := s.sent } := by
  have h1 : g_hash_table_lookup (chat_session_set_sent r id).sessions id =
      some { recipient := s.recipient, recipient_supports := s.recipient_supports,
             state := s.state, active_timer := s.active_timer, sent := true } := by
    rw [lookup_set_sent, if_pos rfl, hs]; rfl
  have h2 : g_hash_table_lookup (chat_session_set_recipient_supports r id b).sessions id =
      some { recipient := s.recipient, recipient_supports := b,
             state := s.state, active_timer := s.active_timer, sent := s.sent } := by
    rw [lookup_set_recipient_supports, if_pos rfl, hs]; rfl
  exact ⟨get_sent_of_lookup _ id _ h1, h1, get_recipient_supports_of_lookup _ id _ h2, h2⟩

/-- Witness for C13: on the fresh session "a" (flag true), `set_sent` makes
`get_sent` true and `set_recipient_supports` with false makes the getter false. -/
theorem flag_setters_getters_witness :
    g_hash_table_lookup
        (chat_session_start ⟨g_hash_table_new_full, []⟩ "a" true 0).sessions "a" =
        some (_chat_session_new "a" true 0)
      ∧ (chat_session_get_sent (chat_session_set_sent
          (chat_session_start ⟨g_hash_table_new_full, []⟩ "a" true 0) "a") "a").1 = true
      ∧ (chat_session_get_recipient_supports (chat_session_set_recipient_supports
          (chat_session_start ⟨g_hash_table_new_full, []⟩ "a" true 0) "a" false) "a").1 =
        false := by
  have hs := lookup_start_same ⟨g_hash_table_new_full, []⟩ "a" true 0
  have h := flag_setters_getters _ "a" _ false hs
  exact ⟨hs, by rw [h.1], by rw [h.2.2.1]⟩

/-! ## Thresholds -/

/-- C14: the thresholds are strict.  For every session with a timer: a poll at
which the timer reads exactly 120 leaves the record unchanged; a poll at which
it reads exactly 600 makes the state Inactive (not Gone); a poll at which it
reads more than 600 makes the state Gone. -/
theorem thresholds_strict (r : Registry) (id : String) (s : chat_session_t) (t : GTimer)
    (now1 now2 now3 : ℚ)
    (hs : g_hash_table_lookup r.sessions id = some s)
    (ht : s.active_timer = some t)
    (h1 : g_timer_elapsed t now1 = 120)
    (h2 : g_timer_elapsed t now2 = 600)
    (h3 : g_timer_elapsed t now3 > 600) :
    g_hash_table_lookup (chat_session_no_activity r id now1).sessions id = some s
      ∧ g_hash_table_lookup (chat_session_no_activity r id now2).sessions id =
        some { s with state := CHAT_STATE_INACTIVE
                      sent := if s.state = CHAT_STATE_INACTIVE then s.sent else false }
      ∧ g_hash_table_lookup (chat_session_no_activity r id now3).sessions id =
        some { s with state := CHAT_STATE_GONE
                      sent := if s.state = CHAT_STATE_GONE then s.sent else false } := by
  refine ⟨?_, ?_, ?_⟩
  · rw [lookup_no_activity, if_pos rfl, hs, Option.map_some', no_activity_session_unchanged]
    intro t1 ht1
    rw [ht] at ht1
    cases ht1
    exact le_of_eq h1
  · rw [lookup_no_activity, if_pos rfl, hs, Option.map_some',
      no_activity_session_inactive s t now2 ht (by rw [h2]; norm_num) (le_of_eq h2)]
  · rw [lookup_no_activity, if_pos rfl, hs, Option.map_some',
      no_activity_session_gone s t now3 ht h3]

/-- Witness for C14: the session "a", active since 0 and flagged as notified,
polled at 120, at 600 and at 601. -/
theorem thresholds_strict_witness :
    g_hash_table_lookup
        (chat_session_set_sent (chat_session_set_active
          (chat_session_start ⟨g_hash_table_new_full, []⟩ "a" true 0) "a" 0) "a").sessions
        "a" =
        some { recipient := "a", recipient_supports := true, state := CHAT_STATE_ACTIVE,
               active_timer := some ⟨0⟩, sent := true }
      ∧ g_timer_elapsed ⟨0⟩ 120 = 120 ∧ g_timer_elapsed ⟨0⟩ 600 = 600
      ∧ g_timer_elapsed ⟨0⟩ 601 > 600
      ∧ g_hash_table_lookup
          (chat_session_no_activity (chat_session_set_sent (chat_session_set_active
            (chat_session_start ⟨g_hash_table_new_full, []⟩ "a" true 0) "a" 0) "a")
            "a" 120).sessions "a" =
        some { recipient := "a", recipient_supports := true, state := CHAT_STATE_ACTIVE,
               active_timer := some ⟨0⟩, sent := true }
      ∧ g_hash_table_lookup
          (chat_session_no_activity (chat_session_set_sent (chat_session_set_active
            (chat_session_start ⟨g_hash_table_new_full, []⟩ "a" true 0) "a" 0) "a")
            "a" 600).sessions "a" =
        some { recipient := "a", recipient_supports := true, state := CHAT_STATE_INACTIVE,
               active_timer := some ⟨0⟩, sent := false }
      ∧ g_hash_table_lookup
          (chat_session_no_activity (chat_session_set_sent (chat_session_set_active
            (chat_session_start ⟨g_hash_table_new_full, []⟩ "a" true 0) "a" 0) "a")
            "a" 601).sessions "a" =
        some { recipient := "a", recipient_supports := true, state := CHAT_STATE_GONE,
               active_timer := some ⟨0⟩, sent := false } := by
  have hs : g_hash_table_lookup
      (chat_session_set_sent (chat_session_set_active
        (chat_session_start ⟨g_hash_table_new_full, []⟩ "a" true 0) "a" 0) "a").sessions
      "a" =
      some { recipient := "a", recipient_supports := true, state := CHAT_STATE_ACTIVE,
             active_timer := some ⟨0⟩, sent := true } := by
    simp [chat_session_set_sent, chat_session_set_active, chat_session_start, store,
      g_hash_table_lookup, g_hash_table_insert, g_timer_start, _chat_session_new,
      g_timer_new]
  have h1 : g_timer_elapsed ⟨0⟩ 120 = 120 := by norm_num [g_timer_elapsed]
  have h2 : g_timer_elapsed ⟨0⟩ 600 = 600 := by norm_num [g_timer_elapsed]
  have h3 : g_timer_elapsed ⟨0⟩ 601 > 600 := by norm_num [g_timer_elapsed]
  have h := thresholds_strict _ "a" _ ⟨0⟩ 120 600 601 hs rfl h1 h2 h3
  refine ⟨hs, h1, h2, h3, h.1, ?_, ?_⟩
  · rw [h.2.1]; simp
  · rw [h.2.2]; simp

/-! ## Repeated polls -/

theorem no_activity_session_timer (s : chat_session_t) (now : ℚ) :
    (no_activity_session s now).active_timer = s.active_timer := by
  unfold no_activity_session
  cases ht : s.active_timer with
  | none => exact ht
  | some t =>
    simp only []
    split_ifs <;> simp [ht]

theorem no_activity_session_twice (s : chat_session_t) (now : ℚ) :
    no_activity_session (no_activity_session s now) now = no_activity_session s now := by
  cases ht : s.active_timer with
  | none => simp [no_activity_session, ht]
  | some t =>
    by_cases h600 : 600 < g_timer_elapsed t now
    · rw [no_activity_session_gone s t now ht h600]
      rw [no_activity_session_gone
        { s with state := CHAT_STATE_GONE
                 sent := if s.state = CHAT_STATE_GONE then s.sent else false } t now ht h600]
      simp
    · by_cases h120 : 120 < g_timer_elapsed t now
      · rw [no_activity_session_inactive s t now ht h120 (not_lt.mp h600)]
        rw [no_activity_session_inactive
          { s with state := CHAT_STATE_INACTIVE
                   sent := if s.state = CHAT_STATE_INACTIVE then s.sent else false }
          t now ht h120 (not_lt.mp h600)]
        simp
      · have hu : no_activity_session s now = s := by
          apply no_activity_session_unchanged
          intro t1 ht1
          rw [ht] at ht1
          cases ht1
          exact not_lt.mp h120
        rw [hu, hu]

/-- C15: notification dedup.  For every registry, id and clock reading, polling
twice at that reading leaves the same table as polling once (and, when a session
is present, the same log too); and a session already Inactive with the flag
true, polled while its timer reads more than 120 and at most 600, is left as it
is, so the flag stays true. -/
theorem poll_idempotent (r : Registry) (id : String) (now : ℚ) :
    (chat_session_no_activity (chat_session_no_activity r id now) id now).sessions =
        (chat_session_no_activity r id now).sessions
      ∧ (g_hash_table_lookup r.sessions id ≠ none →
        chat_session_no_activity (chat_session_no_activity r id now) id now =
          chat_session_no_activity r id now)
      ∧ (∀ s t, g_hash_table_lookup r.sessions id = some s →
          s.state = CHAT_STATE_INACTIVE → s.sent = true → s.active_timer = some t →
          120 < g_timer_elapsed t now → g_timer_elapsed t now ≤ 600 →
          g_hash_table_lookup (chat_session_no_activity r id now).sessions id = some s
            ∧ chat_session_get_sent (chat_session_no_activity r id now) id =
              (true, chat_session_no_activity r id now)) := by
  refine ⟨?_, ?_, ?_⟩
  · funext k
    show g_hash_table_lookup _ k = g_hash_table_lookup _ k
    rw [lookup_no_activity]
    by_cases hk : k = id
    · subst hk
      rw [if_pos rfl, lookup_no_activity, if_pos rfl]
      cases g_hash_table_lookup r.sessions k with
      | none => rfl
      | some s => simp [no_activity_session_twice]
    · rw [if_neg hk]
  · intro h
    cases hs : g_hash_table_lookup r.sessions id with
    | none => exact absurd hs h
    | some s =>
      rw [no_activity_of_lookup r id s now hs,
        no_activity_of_lookup _ id _ now (lookup_store_same r id _), store_store,
        no_activity_session_twice]
  · intro s t hs hst hsent ht h1 h2
    have hl : g_hash_table_lookup (chat_session_no_activity r id now).sessions id =
        some s := by
      rw [lookup_no_activity, if_pos rfl, hs, Option.map_some',
        no_activity_session_inactive s t now ht h1 h2]
      cases s
      simp_all
    refine ⟨hl, ?_⟩
    rw [get_sent_of_lookup _ id _ hl, hsent]

/-- Witness for C15: "a" is active since 0, polled at 130 and flagged as
notified; the next poll at 200 leaves the record, flag included, as it is. -/
theorem poll_idempotent_witness :
    g_hash_table_lookup
        (chat_session_set_sent (chat_session_no_activity
          (chat_session_start ⟨g_hash_table_new_full, []⟩ "a" true 0) "a" 130)
          "a").sessions "a" ≠ none
      ∧ chat_session_no_activity (chat_session_no_activity
          (chat_session_set_sent (chat_session_no_activity
            (chat_session_start ⟨g_hash_table_new_full, []⟩ "a" true 0) "a" 130) "a")
          "a" 200) "a" 200 =
        chat_session_no_activity
          (chat_session_set_sent (chat_session_no_activity
            (chat_session_start ⟨g_hash_table_new_full, []⟩ "a" true 0) "a" 130) "a")
          "a" 200
      ∧ (chat_session_get_sent (chat_session_no_activity
          (chat_session_set_sent (chat_session_no_activity
            (chat_session_start ⟨g_hash_table_new_full, []⟩ "a" true 0) "a" 130) "a")
          "a" 200) "a").1 = true := by
  have hs : g_hash_table_lookup
      (chat_session_set_sent (chat_session_no_activity
        (chat_session_start ⟨g_hash_table_new_full, []⟩ "a" true 0) "a" 130)
        "a").sessions "a" =
      some { recipient := "a", recipient_supports := true, state := CHAT_STATE_INACTIVE,
             active_timer := some ⟨0⟩, sent := true } := by
    simp [chat_session_no_activity, chat_session_set_sent,
      chat_session_start, store, g_hash_table_lookup, g_hash_table_insert,
      no_activity_session, g_timer_elapsed, _chat_session_new, g_timer_new,
      GONE_TIMOUT, INACTIVE_TIMOUT]
    norm_num
  have hne : g_hash_table_lookup
      (chat_session_set_sent (chat_session_no_activity
        (chat_session_start ⟨g_hash_table_new_full, []⟩ "a" true 0) "a" 130)
        "a").sessions "a" ≠ none := by
    rw [hs]; simp
  have h := poll_idempotent
    (chat_session_set_sent (chat_session_no_activity
      (chat_session_start ⟨g_hash_table_new_full, []⟩ "a" true 0) "a" 130) "a") "a" 200
  refine ⟨hne, h.2.1 hne, ?_⟩
  rw [(h.2.2 _ ⟨0⟩ hs rfl rfl rfl (by norm_num [g_timer_elapsed])
    (by norm_num [g_timer_elapsed])).2]

/-- C16: a direct jump to Gone clears the flag once.  For every session in state
Active or Started (whatever its flag, true included) whose timer reads more than
600: the poll stores Gone with the flag false in one step; and after `set_sent`,
any number of further polls at which the timer reads more than 600 leave the
state Gone and the flag true. -/
theorem direct_gone_jump (r : Registry) (id : String) (s : chat_session_t) (t : GTimer)
    (now1 : ℚ) (nows : List ℚ)
    (hs : g_hash_table_lookup r.sessions id = some s)
    (hst : s.state = CHAT_STATE_ACTIVE ∨ s.state = CHAT_STATE_STARTED)
    (ht : s.active_timer = some t)
    (h1 : g_timer_elapsed t now1 > 600)
    (hn : ∀ n ∈ nows, g_timer_elapsed t n > 600) :
    g_hash_table_lookup (chat_session_no_activity r id now1).sessions id =
        some { s with state := CHAT_STATE_GONE, sent := false }
      ∧ g_hash_table_lookup
          (nows.foldl (fun q n => chat_session_no_activity q id n)
            (chat_session_set_sent (chat_session_no_activity r id now1) id)).sessions id =
        some { s with state := CHAT_STATE_GONE, sent := true } := by
  have hng : s.state ≠ CHAT_STATE_GONE := by
    rcases hst with h | h <;> rw [h] <;> decide
  have hl1 : g_hash_table_lookup (chat_session_no_activity r id now1).sessions id =
      some { s with state := CHAT_STATE_GONE, sent := false } := by
    rw [lookup_no_activity, if_pos rfl, hs, Option.map_some',
      no_activity_session_gone s t now1 ht h1]
    simp [hng]
  have hl2 : g_hash_table_lookup
      (chat_session_set_sent (chat_session_no_activity r id now1) id).sessions id =
      some { s with state := CHAT_STATE_GONE, sent := true } := by
    rw [lookup_set_sent, if_pos rfl, hl1]; rfl
  refine ⟨hl1, ?_⟩
  generalize chat_session_set_sent (chat_session_no_activity r id now1) id = q at hl2
  induction nows generalizing q with
  | nil => exact hl2
  | cons n rest ih =>
    rw [List.foldl_cons]
    apply ih (fun m hm => hn m (List.mem_cons_of_mem _ hm))
    rw [lookup_no_activity, if_pos rfl, hl2, Option.map_some',
      no_activity_session_gone { s with state := CHAT_STATE_GONE, sent := true } t n ht
        (hn n (List.mem_cons_self _ _))]
    simp

/-- Witness for C16: "a", active since 0 and flagged as notified, is polled at 700,
flagged again, and polled at 701 and 900. -/
theorem direct_gone_jump_witness :
    g_hash_table_lookup
        (chat_session_set_sent (chat_session_set_active
          (chat_session_start ⟨g_hash_table_new_full, []⟩ "a" true 0) "a" 0) "a").sessions
        "a" =
        some { recipient := "a", recipient_supports := true, state := CHAT_STATE_ACTIVE,
               active_timer := some ⟨0⟩, sent := true }
      ∧ g_timer_elapsed ⟨0⟩ 700 > 600
      ∧ (∀ n ∈ [(701 : ℚ), 900], g_timer_elapsed ⟨0⟩ n > 600)
      ∧ g_hash_table_lookup
          (chat_session_no_activity (chat_session_set_sent (chat_session_set_active
            (chat_session_start ⟨g_hash_table_new_full, []⟩ "a" true 0) "a" 0) "a")
            "a" 700).sessions "a" =
        some { recipient := "a", recipient_supports := true, state := CHAT_STATE_GONE,
               active_timer := some ⟨0⟩, sent := false }
      ∧ g_hash_table_lookup
          (chat_session_no_activity (chat_session_no_activity
            (chat_session_set_sent
              (chat_session_no_activity (chat_session_set_sent (chat_session_set_active
                (chat_session_start ⟨g_hash_table_new_full, []⟩ "a" true 0) "a" 0) "a")
                "a" 700) "a")
            "a" 701) "a" 900).sessions "a" =
        some { recipient := "a", recipient_supports := true, state := CHAT_STATE_GONE,
               active_timer := some ⟨0⟩, sent := true } := by
  have hs : g_hash_table_lookup
      (chat_session_set_sent (chat_session_set_active
        (chat_session_start ⟨g_hash_table_new_full, []⟩ "a" true 0) "a" 0) "a").sessions
      "a" =
      some { recipient := "a", recipient_supports := true, state := CHAT_STATE_ACTIVE,
             active_timer := some ⟨0⟩, sent := true } := by
    simp [chat_session_set_sent, chat_session_set_active, chat_session_start, store,
      g_hash_table_lookup, g_hash_table_insert, g_timer_start, _chat_session_new,
      g_timer_new]
  have h1 : g_timer_elapsed ⟨0⟩ 700 > 600 := by norm_num [g_timer_elapsed]
  have hn : ∀ n ∈ [(701 : ℚ), 900], g_timer_elapsed ⟨0⟩ n > 600 := by
    intro n hmem
    simp only [List.mem_cons, List.mem_singleton, List.not_mem_nil, or_false] at hmem
    rcases hmem with h | h <;> rw [h] <;> norm_num [g_timer_elapsed]
  have h := direct_gone_jump _ "a" _ ⟨0⟩ 700 [701, 900] hs (Or.inl rfl) rfl h1 hn
  exact ⟨hs, h1, hn, h.1, h.2⟩

/-- C18: for every registry and id with a session present, the poll (at any
clock reading, whichever branch it takes), `set_sent` and
`set_recipient_supports` store a record whose timer is the one stored before, so
a later poll still measures from the last `set_active` or `start`. -/
theorem timer_reference_kept (r : Registry) (id : String) (s : chat_session_t) (b : Bool)
    (now : ℚ) (hs : g_hash_table_lookup r.sessions id = some s) :
    (g_hash_table_lookup (chat_session_no_activity r id now).sessions id).map
        (fun q => q.active_timer) = some s.active_timer
      ∧ (g_hash_table_lookup (chat_session_set_sent r id).sessions id).map
        (fun q => q.active_timer) = some s.active_timer
      ∧ (g_hash_table_lookup (chat_session_set_recipient_supports r id b).sessions id).map
        (fun q => q.active_timer) = some s.active_timer := by
  refine ⟨?_, ?_, ?_⟩
  · rw [lookup_no_activity, if_pos rfl, hs]
    simp [no_activity_session_timer]
  · rw [lookup_set_sent, if_pos rfl, hs]; rfl
  · rw [lookup_set_recipient_supports, if_pos rfl, hs]; rfl

/-- Witness for C18: "a" started at 0 and polled at 700 keeps the timer started
at 0. -/
theorem timer_reference_kept_witness :
    g_hash_table_lookup
        (chat_session_start ⟨g_hash_table_new_full, []⟩ "a" true 0).sessions "a" =
        some (_chat_session_new "a" true 0)
      ∧ (g_hash_table_lookup
          (chat_session_no_activity
            (chat_session_start ⟨g_hash_table_new_full, []⟩ "a" true 0) "a" 700).sessions
          "a").map (fun q => q.active_timer) = some (some ⟨0⟩) :=
  ⟨lookup_start_same _ "a" true 0,
    (timer_reference_kept _ "a" _ true 700 (lookup_start_same _ "a" true 0)).1⟩

/-! ## Auxiliary facts about sequences of calls -/

/-- Where the record found under `id` after one call comes from. -/
theorem step_cases (r : Registry) (now : ℚ) (op : Op) (id : String) (s1 : chat_session_t)
    (h1 : g_hash_table_lookup (step r now op).sessions id = some s1) :
    (∃ x, op = Op.start id x ∧ s1 = _chat_session_new id x now)
      ∨ ∃ s, g_hash_table_lookup r.sessions id = some s ∧
        ((op = Op.set_active id ∧
            s1 = { s with state := CHAT_STATE_ACTIVE
                          active_timer := g_timer_start s.active_timer now })
          ∨ (op = Op.no_activity id ∧ s1 = no_activity_session s now)
          ∨ (op = Op.set_sent id ∧ s1 = { s with sent := true })
          ∨ (∃ x, op = Op.set_recipient_supports id x ∧
              s1 = { s with recipient_supports := x })
          ∨ s1 = s) := by
  cases op with
  | clear => simp [step, lookup_clear] at h1
  | exists_ k =>
    simp only [step, sessions_exists] at h1
    exact Or.inr ⟨s1, h1, by simp⟩
  | start k x =>
    simp only [step, lookup_start] at h1
    by_cases hk : id = k
    · subst hk
      rw [if_pos rfl] at h1
      exact Or.inl ⟨x, rfl, (Option.some.inj h1).symm⟩
    · rw [if_neg hk] at h1
      exact Or.inr ⟨s1, h1, by simp⟩
  | set_active k =>
    simp only [step, lookup_set_active] at h1
    by_cases hk : id = k
    · subst hk
      rw [if_pos rfl] at h1
      cases hs : g_hash_table_lookup r.sessions id with
      | none => simp [hs] at h1
      | some s =>
        rw [hs, Option.map_some'] at h1
        exact Or.inr ⟨s, rfl, Or.inl ⟨rfl, (Option.some.inj h1).symm⟩⟩
    · rw [if_neg hk] at h1
      exact Or.inr ⟨s1, h1, by simp⟩
  | no_activity k =>
    simp only [step, lookup_no_activity] at h1
    by_cases hk : id = k
    · subst hk
      rw [if_pos rfl] at h1
      cases hs : g_hash_table_lookup r.sessions id with
      | none => simp [hs] at h1
      | some s =>
        rw [hs, Option.map_some'] at h1
        exact Or.inr ⟨s, rfl, Or.inr (Or.inl ⟨rfl, (Option.some.inj h1).symm⟩)⟩
    · rw [if_neg hk] at h1
      exact Or.inr ⟨s1, h1, by simp⟩
  | set_sent k =>
    simp only [step, lookup_set_sent] at h1
    by_cases hk : id = k
    · subst hk
      rw [if_pos rfl] at h1
      cases hs : g_hash_table_lookup r.sessions id with
      | none => simp [hs] at h1
      | some s =>
        rw [hs, Option.map_some'] at h1
        exact Or.inr ⟨s, rfl, Or.inr (Or.inr (Or.inl ⟨rfl, (Option.some.inj h1).symm⟩))⟩
    · rw [if_neg hk] at h1
      exact Or.inr ⟨s1, h1, by simp⟩
  | get_sent k =>
    simp only [step, sessions_get_sent] at h1
    exact Or.inr ⟨s1, h1, by simp⟩
  | end_ k =>
    simp only [step, lookup_end] at h1
    by_cases hk : id = k
    · rw [if_pos hk] at h1
      simp at h1
    · rw [if_neg hk] at h1
      exact Or.inr ⟨s1, h1, by simp⟩
  | inactive k =>
    simp only [step, sessions_inactive] at h1
    exact Or.inr ⟨s1, h1, by simp⟩
  | gone k =>
    simp only [step, sessions_gone] at h1
    exact Or.inr ⟨s1, h1, by simp⟩
  | get_recipient_supports k =>
    simp only [step, sessions_get_recipient_supports] at h1
    exact Or.inr ⟨s1, h1, by simp⟩
  | set_recipient_supports k x =>
    simp only [step, lookup_set_recipient_supports] at h1
    by_cases hk : id = k
    · subst hk
      rw [if_pos rfl] at h1
      cases hs : g_hash_table_lookup r.sessions id with
      | none => simp [hs] at h1
      | some s =>
        rw [hs, Option.map_some'] at h1
        exact Or.inr ⟨s, rfl,
          Or.inr (Or.inr (Or.inr (Or.inl ⟨x, rfl, (Option.some.inj h1).symm⟩)))⟩
    · rw [if_neg hk] at h1
      exact Or.inr ⟨s1, h1, by simp⟩

/-- Presence of a record under `id` after one call. -/
theorem isSome_step (r : Registry) (now : ℚ) (op : Op) (id : String) :
    (g_hash_table_lookup (step r now op).sessions id).isSome =
      (op.starts id || ((g_hash_table_lookup r.sessions id).isSome && !op.removes id)) := by
  cases op with
  | clear => simp [step, lookup_clear, Op.starts, Op.removes]
  | exists_ k => simp [step, sessions_exists, Op.starts, Op.removes]
  | start k x =>
    simp only [step, lookup_start, Op.starts, Op.removes]
    by_cases hk : id = k
    · subst hk; simp
    · have hk2 : ¬ k = id := fun h => hk h.symm
      simp [hk, hk2]
  | set_active k =>
    simp only [step, lookup_set_active, Op.starts, Op.removes]
    by_cases hk : id = k
    · subst hk; simp
    · simp [hk]
  | no_activity k =>
    simp only [step, lookup_no_activity, Op.starts, Op.removes]
    by_cases hk : id = k
    · subst hk; simp
    · simp [hk]
  | set_sent k =>
    simp only [step, lookup_set_sent, Op.starts, Op.removes]
    by_cases hk : id = k
    · subst hk; simp
    · simp [hk]
  | get_sent k => simp [step, sessions_get_sent, Op.starts, Op.removes]
  | end_ k =>
    simp only [step, lookup_end, Op.starts, Op.removes]
    by_cases hk : id = k
    · subst hk; simp
    · have hk2 : ¬ k = id := fun h => hk h.symm
      simp [hk, hk2]
  | inactive k => simp [step, sessions_inactive, Op.starts, Op.removes]
  | gone k => simp [step, sessions_gone, Op.starts, Op.removes]
  | get_recipient_supports k =>
    simp [step, sessions_get_recipient_supports, Op.starts, Op.removes]
  | set_recipient_supports k x =>
    simp only [step, lookup_set_recipient_supports, Op.starts, Op.removes]
    by_cases hk : id = k
    · subst hk; simp
    · simp [hk]

/-- Presence of a record under `id` after a sequence of calls. -/
theorem isSome_run (ops : List (ℚ × Op)) (r : Registry) (id : String) :
    (g_hash_table_lookup (run r ops).sessions id).isSome =
      (tracked id ops ||
        ((g_hash_table_lookup r.sessions id).isSome &&
          ops.all (fun p => !p.2.removes id))) := by
  induction ops generalizing r with
  | nil => simp [run, tracked]
  | cons p rest ih =>
    obtain ⟨now, op⟩ := p
    simp only [run, tracked, List.all_cons]
    rw [ih, isSome_step]
    generalize tracked id rest = a
    generalize (g_hash_table_lookup r.sessions id).isSome = b
    generalize rest.all (fun p => !p.2.removes id) = c
    generalize op.starts id = d
    generalize op.removes id = e
    cases a <;> cases b <;> cases c <;> cases d <;> cases e <;> rfl

theorem run_append (ops1 ops2 : List (ℚ × Op)) (r : Registry) :
    run r (ops1 ++ ops2) = run (run r ops1) ops2 := by
  induction ops1 generalizing r with
  | nil => rfl
  | cons p rest ih =>
    obtain ⟨now, op⟩ := p
    simp only [List.cons_append, run]
    exact ih _

/-! ## Tracking, entry points of the states, isolation -/

/-- C12: for every sequence of calls run from `chat_sessions_init` (any clock
readings) and every id, `chat_session_exists` afterwards is true exactly when
the sequence contains a `start` for the id that no later `end` for the id or
`clear` follows; and `chat_session_exists` returns the registry, table and log,
as it received it. -/
theorem exists_iff_tracked (r0 r : Registry) (ops : List (ℚ × Op)) (id : String) :
    ((chat_session_exists (run (chat_sessions_init r0) ops) id).1 = true ↔
        tracked id ops = true)
      ∧ (chat_session_exists r id).2 = r := by
  refine ⟨?_, sessions_exists r id⟩
  rw [(query_values _ id).1, isSome_run]
  have h0 : g_hash_table_lookup (chat_sessions_init r0).sessions id = none := rfl
  rw [h0]
  simp

/-- C17: entry points of the states.  For every registry and id with a session
present: the state after a poll is the old state, Inactive or Gone, and is
Started or Active only if it was so before; `set_sent` and
`set_recipient_supports` keep the state; and for every call whatsoever, a
record found under the id afterwards is in state Started only if the state was
Started before or the call is a `start` for the id, and in state Active only if
the state was Active before or the call is `set_active` for the id. -/
theorem state_entry_points (r : Registry) (id : String) (s : chat_session_t) (now : ℚ)
    (b : Bool) (op : Op)
    (hs : g_hash_table_lookup r.sessions id = some s) :
    (∃ s1, g_hash_table_lookup (chat_session_no_activity r id now).sessions id = some s1
        ∧ (s1.state = s.state ∨ s1.state = CHAT_STATE_INACTIVE ∨ s1.state = CHAT_STATE_GONE)
        ∧ (s1.state = CHAT_STATE_STARTED → s.state = CHAT_STATE_STARTED)
        ∧ (s1.state = CHAT_STATE_ACTIVE → s.state = CHAT_STATE_ACTIVE))
      ∧ (g_hash_table_lookup (chat_session_set_sent r id).sessions id).map
          (fun q => q.state) = some s.state
      ∧ (g_hash_table_lookup (chat_session_set_recipient_supports r id b).sessions id).map
          (fun q => q.state) = some s.state
      ∧ (∀ s1, g_hash_table_lookup (step r now op).sessions id = some s1 →
          (s1.state = CHAT_STATE_STARTED →
            s.state = CHAT_STATE_STARTED ∨ ∃ x, op = Op.start id x)
          ∧ (s1.state = CHAT_STATE_ACTIVE →
            s.state = CHAT_STATE_ACTIVE ∨ op = Op.set_active id)) := by
  have hpoll : (no_activity_session s now).state = s.state
      ∨ (no_activity_session s now).state = CHAT_STATE_INACTIVE
      ∨ (no_activity_session s now).state = CHAT_STATE_GONE := by
    cases ht : s.active_timer with
    | none => exact Or.inl (by simp [no_activity_session, ht])
    | some t =>
      by_cases h600 : 600 < g_timer_elapsed t now
      · rw [no_activity_session_gone s t now ht h600]
        exact Or.inr (Or.inr rfl)
      · by_cases h120 : 120 < g_timer_elapsed t now
        · rw [no_activity_session_inactive s t now ht h120 (not_lt.mp h600)]
          exact Or.inr (Or.inl rfl)
        · rw [no_activity_session_unchanged s now (fun t1 ht1 => by
            rw [ht] at ht1
            cases ht1
            exact not_lt.mp h120)]
          exact Or.inl rfl
  have hstarted : (no_activity_session s now).state = CHAT_STATE_STARTED →
      s.state = CHAT_STATE_STARTED := by
    intro h
    rcases hpoll with h1 | h1 | h1
    · rw [← h1]; exact h
    · rw [h1] at h; cases h
    · rw [h1] at h; cases h
  have hactive : (no_activity_session s now).state = CHAT_STATE_ACTIVE →
      s.state = CHAT_STATE_ACTIVE := by
    intro h
    rcases hpoll with h1 | h1 | h1
    · rw [← h1]; exact h
    · rw [h1] at h; cases h
    · rw [h1] at h; cases h
  refine ⟨⟨no_activity_session s now, ?_, hpoll, hstarted, hactive⟩, ?_, ?_, ?_⟩
  · rw [lookup_no_activity, if_pos rfl, hs]; rfl
  · rw [lookup_set_sent, if_pos rfl, hs]; rfl
  · rw [lookup_set_recipient_supports, if_pos rfl, hs]; rfl
  · intro s1 h1
    rcases step_cases r now op id s1 h1 with ⟨x, hop, _⟩ | ⟨s0, hs0, hcase⟩
    · exact ⟨fun _ => Or.inr ⟨x, hop⟩, fun h => by
        subst hop
        rename_i hnew
        rw [hnew] at h
        cases h⟩
    · rw [hs] at hs0
      cases hs0
      rcases hcase with ⟨hop, _⟩ | ⟨_, h2⟩ | ⟨_, h2⟩ | ⟨x, _, h2⟩ | h2
      · refine ⟨fun h => ?_, fun _ => Or.inr hop⟩
        rename_i hrec
        rw [hrec] at h
        cases h
      · subst h2
        exact ⟨fun h => Or.inl (hstarted h), fun h => Or.inl (hactive h)⟩
      · subst h2
        exact ⟨fun h => Or.inl h, fun h => Or.inl h⟩
      · subst h2
        exact ⟨fun h => Or.inl h, fun h => Or.inl h⟩
      · subst h2
        exact ⟨fun h => Or.inl h, fun h => Or.inl h⟩

/-- Witness for C17: the gone session "a" polled again at 800 stays gone, and
the only way it turns active is `set_active`. -/
theorem state_entry_points_witness :
    g_hash_table_lookup
        (chat_session_no_activity
          (chat_session_start ⟨g_hash_table_new_full, []⟩ "a" true 0) "a" 700).sessions "a" =
        some { recipient := "a", recipient_supports := true, state := CHAT_STATE_GONE,
               active_timer := some ⟨0⟩, sent := false }
      ∧ (∀ s1, g_hash_table_lookup
            (step (chat_session_no_activity
              (chat_session_start ⟨g_hash_table_new_full, []⟩ "a" true 0) "a" 700)
              800 (Op.no_activity "a")).sessions "a" = some s1 →
          (s1.state = CHAT_STATE_STARTED →
            CHAT_STATE_GONE = CHAT_STATE_STARTED ∨ ∃ x, Op.no_activity "a" = Op.start "a" x)
          ∧ (s1.state = CHAT_STATE_ACTIVE →
            CHAT_STATE_GONE = CHAT_STATE_ACTIVE ∨ Op.no_activity "a" = Op.set_active "a")) := by
  have hs : g_hash_table_lookup
      (chat_session_no_activity
        (chat_session_start ⟨g_hash_table_new_full, []⟩ "a" true 0) "a" 700).sessions "a" =
      some { recipient := "a", recipient_supports := true, state := CHAT_STATE_GONE,
             active_timer := some ⟨0⟩, sent := false } := by
    simp [chat_session_no_activity, chat_session_start, store, g_hash_table_lookup,
      g_hash_table_insert, no_activity_session, g_timer_elapsed, _chat_session_new,
      g_timer_new, GONE_TIMOUT]
    norm_num
  exact ⟨hs, (state_entry_points _ "a" _ 800 true (Op.no_activity "a") hs).2.2.2⟩

/-- C20: per-peer isolation.  For every registry and two distinct ids `a` and
`b`, every call keyed by `a` (lifecycle call, mutator or query, at any clock
reading) leaves the record stored under `b` as it is, and with it the values of
`exists`, `inactive`, `gone`, `get_recipient_supports` and `get_sent` for `b`. -/
theorem per_peer_isolation (r : Registry) (now : ℚ) (op : Op) (a b : String)
    (hk : op.key = some a) (hab : a ≠ b) :
    g_hash_table_lookup (step r now op).sessions b = g_hash_table_lookup r.sessions b
      ∧ (chat_session_exists (step r now op) b).1 = (chat_session_exists r b).1
      ∧ (chat_session_inactive (step r now op) b).1 = (chat_session_inactive r b).1
      ∧ (chat_session_gone (step r now op) b).1 = (chat_session_gone r b).1
      ∧ (chat_session_get_recipient_supports (step r now op) b).1 =
        (chat_session_get_recipient_supports r b).1
      ∧ (chat_session_get_sent (step r now op) b).1 = (chat_session_get_sent r b).1 := by
  have hba : ¬ b = a := fun h => hab h.symm
  have hl : g_hash_table_lookup (step r now op).sessions b =
      g_hash_table_lookup r.sessions b := by
    cases op with
    | clear => simp [Op.key] at hk
    | exists_ k => simp [step, sessions_exists]
    | start k x =>
      simp only [Op.key, Option.some.injEq] at hk
      subst hk
      simp [step, lookup_start, hba]
    | set_active k =>
      simp only [Op.key, Option.some.injEq] at hk
      subst hk
      simp [step, lookup_set_active, hba]
    | no_activity k =>
      simp only [Op.key, Option.some.injEq] at hk
      subst hk
      simp [step, lookup_no_activity, hba]
    | set_sent k =>
      simp only [Op.key, Option.some.injEq] at hk
      subst hk
      simp [step, lookup_set_sent, hba]
    | get_sent k => simp [step, sessions_get_sent]
    | end_ k =>
      simp only [Op.key, Option.some.injEq] at hk
      subst hk
      simp [step, lookup_end, hba]
    | inactive k => simp [step, sessions_inactive]
    | gone k => simp [step, sessions_gone]
    | get_recipient_supports k => simp [step, sessions_get_recipient_supports]
    | set_recipient_supports k x =>
      simp only [Op.key, Option.some.injEq] at hk
      subst hk
      simp [step, lookup_set_recipient_supports, hba]
  have q1 := query_values (step r now op) b
  have q0 := query_values r b
  rw [hl] at q1
  exact ⟨hl, q1.1.trans q0.1.symm, q1.2.1.trans q0.2.1.symm, q1.2.2.1.trans q0.2.2.1.symm,
    q1.2.2.2.1.trans q0.2.2.2.1.symm, q1.2.2.2.2.trans q0.2.2.2.2.symm⟩

/-- Witness for C20: with "a" and "b" tracked, `start` for "a" at 50 leaves the
record of "b" as it was. -/
theorem per_peer_isolation_witness :
    (Op.start "a" false).key = some "a" ∧ "a" ≠ "b"
      ∧ g_hash_table_lookup
          (step (chat_session_start (chat_session_start ⟨g_hash_table_new_full, []⟩
            "a" true 0) "b" true 10) 50 (Op.start "a" false)).sessions "b" =
        g_hash_table_lookup
          (chat_session_start (chat_session_start ⟨g_hash_table_new_full, []⟩
            "a" true 0) "b" true 10).sessions "b" :=
  ⟨rfl, by decide, (per_peer_isolation _ 50 (Op.start "a" false) "a" "b" rfl (by decide)).1⟩

/-! ## States under a non-decreasing clock -/

theorem elapsed_mono (t : GTimer) (now1 now2 : ℚ) (h : now1 ≤ now2) :
    g_timer_elapsed t now1 ≤ g_timer_elapsed t now2 := by
  unfold g_timer_elapsed
  linarith

theorem clockInvariant_mono (r : Registry) (now1 now2 : ℚ) (h : now1 ≤ now2)
    (hinv : clockInvariant now1 r) : clockInvariant now2 r := by
  intro id s hs
  obtain ⟨t, ht, hg, hi⟩ := hinv id s hs
  have hm := elapsed_mono t now1 now2 h
  exact ⟨t, ht, fun h1 => lt_of_lt_of_le (hg h1) hm, fun h1 => lt_of_lt_of_le (hi h1) hm⟩

/-- The poll keeps the invariant for the polled record. -/
theorem clockInvariant_poll (s : chat_session_t) (t : GTimer) (now : ℚ)
    (ht : s.active_timer = some t)
    (hg : s.state = CHAT_STATE_GONE → 600 < g_timer_elapsed t now)
    (hi : s.state = CHAT_STATE_INACTIVE → 120 < g_timer_elapsed t now) :
    (no_activity_session s now).active_timer = some t
      ∧ ((no_activity_session s now).state = CHAT_STATE_GONE → 600 < g_timer_elapsed t now)
      ∧ ((no_activity_session s now).state = CHAT_STATE_INACTIVE →
          120 < g_timer_elapsed t now)
      ∧ stateRank s.state ≤ stateRank (no_activity_session s now).state := by
  refine ⟨by rw [no_activity_session_timer, ht], ?_⟩
  by_cases h600 : 600 < g_timer_elapsed t now
  · rw [no_activity_session_gone s t now ht h600]
    refine ⟨fun _ => h600, (fun h => by cases h), ?_⟩
    cases s.state <;> simp [stateRank]
  · by_cases h120 : 120 < g_timer_elapsed t now
    · rw [no_activity_session_inactive s t now ht h120 (not_lt.mp h600)]
      refine ⟨(fun h => by cases h), fun _ => h120, ?_⟩
      cases hst : s.state with
      | CHAT_STATE_GONE => exact absurd (hg hst) h600
      | _ => simp [stateRank]
    · rw [no_activity_session_unchanged s now (fun t1 ht1 => by
        rw [ht] at ht1
        cases ht1
        exact not_lt.mp h120)]
      exact ⟨hg, hi, le_refl _⟩

theorem clockInvariant_step (r : Registry) (now : ℚ) (op : Op)
    (hinv : clockInvariant now r) : clockInvariant now (step r now op) := by
  intro id s1 h1
  rcases step_cases r now op id s1 h1 with ⟨x, _, hnew⟩ | ⟨s, hs, hcase⟩
  · subst hnew
    exact ⟨⟨now⟩, rfl, (fun h => by cases h), (fun h => by cases h)⟩
  · obtain ⟨t, ht, hg, hi⟩ := hinv id s hs
    rcases hcase with ⟨_, h2⟩ | ⟨_, h2⟩ | ⟨_, h2⟩ | ⟨x, _, h2⟩ | h2
    · subst h2
      exact ⟨⟨now⟩, by simp [g_timer_start, ht], (fun h => by cases h), (fun h => by cases h)⟩
    · subst h2
      have hp := clockInvariant_poll s t now ht hg hi
      exact ⟨t, hp.1, hp.2.1, hp.2.2.1⟩
    · subst h2
      exact ⟨t, ht, hg, hi⟩
    · subst h2
      exact ⟨t, ht, hg, hi⟩
    · subst h2
      exact ⟨t, ht, hg, hi⟩

theorem clockInvariant_run (ops : List (ℚ × Op)) (r : Registry) (lo now : ℚ)
    (hinv : clockInvariant lo r)
    (hlo : ∀ p ∈ ops, lo ≤ p.1)
    (hsorted : (ops.map Prod.fst).Sorted (· ≤ ·))
    (hnow : ∀ p ∈ ops, p.1 ≤ now) (hle : lo ≤ now) :
    clockInvariant now (run r ops) := by
  induction ops generalizing r lo with
  | nil => exact clockInvariant_mono r lo now hle hinv
  | cons p rest ih =>
    obtain ⟨t, op⟩ := p
    simp only [List.map_cons, List.sorted_cons] at hsorted
    have hlt : lo ≤ t := hlo (t, op) (List.mem_cons_self _ _)
    have htn : t ≤ now := hnow (t, op) (List.mem_cons_self _ _)
    have h1 : clockInvariant t (step r t op) :=
      clockInvariant_step r t op (clockInvariant_mono r lo t hlt hinv)
    apply ih (step r t op) t h1
    · intro q hq
      exact hsorted.1 q.1 (List.mem_map_of_mem Prod.fst hq)
    · exact hsorted.2
    · intro q hq
      exact hnow q (List.mem_cons_of_mem _ hq)
    · exact htn

/-- The invariant holds after every run from the empty table. -/
theorem clockInvariant_run_init (ops : List (ℚ × Op)) (r0 : Registry) (now : ℚ)
    (hsorted : (ops.map Prod.fst).Sorted (· ≤ ·))
    (hnow : ∀ p ∈ ops, p.1 ≤ now) :
    clockInvariant now (run (chat_sessions_init r0) ops) := by
  have h0 : ∀ lo, clockInvariant lo (chat_sessions_init r0) := by
    intro lo id s hs
    have : g_hash_table_lookup (chat_sessions_init r0).sessions id = none := rfl
    rw [this] at hs
    cases hs
  cases ops with
  | nil => exact h0 now
  | cons p rest =>
    apply clockInvariant_run (p :: rest) _ p.1 now (h0 p.1) _ hsorted hnow
      (hnow p (List.mem_cons_self _ _))
    intro q hq
    rcases List.mem_cons.mp hq with h | h
    · rw [h]
    · simp only [List.map_cons, List.sorted_cons] at hsorted
      exact hsorted.1 q.1 (List.mem_map_of_mem Prod.fst h)

/-- Without a `start` for `id`, an absent record stays absent. -/
theorem absent_run (ops : List (ℚ × Op)) (r : Registry) (id : String)
    (h0 : g_hash_table_lookup r.sessions id = none)
    (hns : ∀ p ∈ ops, ∀ x, p.2 ≠ Op.start id x) :
    g_hash_table_lookup (run r ops).sessions id = none := by
  induction ops generalizing r with
  | nil => exact h0
  | cons p rest ih =>
    obtain ⟨t, op⟩ := p
    simp only [run]
    apply ih
    · cases h1 : g_hash_table_lookup (step r t op).sessions id with
      | none => rfl
      | some s1 =>
        rcases step_cases r t op id s1 h1 with ⟨x, hop, _⟩ | ⟨s, hs, _⟩
        · exact absurd hop (hns (t, op) (List.mem_cons_self _ _) x)
        · rw [h0] at hs
          cases hs
    · intro q hq
      exact hns q (List.mem_cons_of_mem _ hq)

theorem stateRank_step (r : Registry) (now : ℚ) (op : Op) (id : String)
    (s s1 : chat_session_t)
    (hinv : clockInvariant now r)
    (hs : g_hash_table_lookup r.sessions id = some s)
    (hstart : ∀ x, op ≠ Op.start id x) (hact : op ≠ Op.set_active id)
    (h1 : g_hash_table_lookup (step r now op).sessions id = some s1) :
    stateRank s.state ≤ stateRank s1.state := by
  rcases step_cases r now op id s1 h1 with ⟨x, hop, _⟩ | ⟨s0, hs0, hcase⟩
  · exact absurd hop (hstart x)
  · rw [hs] at hs0
    cases hs0
    obtain ⟨t, ht, hg, hi⟩ := hinv id s hs
    rcases hcase with ⟨hop, _⟩ | ⟨_, h2⟩ | ⟨_, h2⟩ | ⟨x, _, h2⟩ | h2
    · exact absurd hop hact
    · subst h2
      exact (clockInvariant_poll s t now ht hg hi).2.2.2
    · subst h2
      exact le_refl _
    · subst h2
      exact le_refl _
    · subst h2
      exact le_refl _

theorem stateRank_run (ops : List (ℚ × Op)) (r : Registry) (lo : ℚ) (id : String)
    (s s2 : chat_session_t)
    (hinv : clockInvariant lo r)
    (hs : g_hash_table_lookup r.sessions id = some s)
    (hlo : ∀ p ∈ ops, lo ≤ p.1)
    (hsorted : (ops.map Prod.fst).Sorted (· ≤ ·))
    (hno : ∀ p ∈ ops, (∀ x, p.2 ≠ Op.start id x) ∧ p.2 ≠ Op.set_active id)
    (h2 : g_hash_table_lookup (run r ops).sessions id = some s2) :
    stateRank s.state ≤ stateRank s2.state := by
  induction ops generalizing r lo s with
  | nil =>
    simp only [run] at h2
    rw [hs] at h2
    cases h2
    exact le_refl _
  | cons p rest ih =>
    obtain ⟨t, op⟩ := p
    simp only [List.map_cons, List.sorted_cons] at hsorted
    simp only [run] at h2
    have hlt : lo ≤ t := hlo (t, op) (List.mem_cons_self _ _)
    have hinvt : clockInvariant t r := clockInvariant_mono r lo t hlt hinv
    have hop := hno (t, op) (List.mem_cons_self _ _)
    have hrest : ∀ q ∈ rest, (∀ x, q.2 ≠ Op.start id x) ∧ q.2 ≠ Op.set_active id :=
      fun q hq => hno q (List.mem_cons_of_mem _ hq)
    cases h1 : g_hash_table_lookup (step r t op).sessions id with
    | none =>
      rw [absent_run rest _ id h1 (fun q hq => (hrest q hq).1)] at h2
      cases h2
    | some s1 =>
      have hstep := stateRank_step r t op id s s1 hinvt hs hop.1 hop.2 h1
      have hih := ih (step r t op) t s1 (clockInvariant_step r t op hinvt) h1
        (fun q hq => hsorted.1 q.1 (List.mem_map_of_mem Prod.fst hq)) hsorted.2 hrest h2
      exact le_trans hstep hih

/-- C19: states only advance under a non-decreasing clock.  Let `ops` be calls
run from `chat_sessions_init` at non-decreasing clock readings, `ops2` further
calls continuing that clock, and `now` a reading not before any call of `ops`.
Every record `s` stored after `ops` has a timer, which reads more than 600 at
`now` if the state is Gone and more than 120 if it is Inactive; a poll at `now`
leaves a Gone record as it is; and if `ops2` holds no `start` and no
`set_active` for the id, the state found after `ops2` does not rank below the
state of `s` (Started and Active, then Inactive, then Gone).  The poll by
itself, on a Gone record whose timer reads more than 120 and at most 600, does
store Inactive and a false flag. -/
theorem monotone_clock_states_advance (r0 : Registry) (ops ops2 : List (ℚ × Op))
    (now : ℚ) (id : String) (s : chat_session_t)
    (hsorted : ((ops ++ ops2).map Prod.fst).Sorted (· ≤ ·))
    (hnow : ∀ p ∈ ops, p.1 ≤ now)
    (hs : g_hash_table_lookup (run (chat_sessions_init r0) ops).sessions id = some s) :
    (∃ t, s.active_timer = some t
        ∧ (s.state = CHAT_STATE_GONE → g_timer_elapsed t now > 600)
        ∧ (s.state = CHAT_STATE_INACTIVE → g_timer_elapsed t now > 120))
      ∧ (s.state = CHAT_STATE_GONE →
          g_hash_table_lookup
            (chat_session_no_activity (run (chat_sessions_init r0) ops) id now).sessions id =
            some s)
      ∧ ((∀ p ∈ ops2, (∀ x, p.2 ≠ Op.start id x) ∧ p.2 ≠ Op.set_active id) →
          ∀ s2, g_hash_table_lookup
              (run (chat_sessions_init r0) (ops ++ ops2)).sessions id = some s2 →
            stateRank s.state ≤ stateRank s2.state)
      ∧ (∀ (q : chat_session_t) (t : GTimer) (n : ℚ),
          q.state = CHAT_STATE_GONE → q.active_timer = some t →
          120 < g_timer_elapsed t n → g_timer_elapsed t n ≤ 600 →
          no_activity_session q n = { q with state := CHAT_STATE_INACTIVE, sent := false }) := by
  have hsorted1 : (ops.map Prod.fst).Sorted (· ≤ ·) := by
    rw [List.map_append] at hsorted
    exact (List.pairwise_append.mp hsorted).1
  have hsorted2 : (ops2.map Prod.fst).Sorted (· ≤ ·) := by
    rw [List.map_append] at hsorted
    exact (List.pairwise_append.mp hsorted).2.1
  have hcross : ∀ p ∈ ops, ∀ q ∈ ops2, p.1 ≤ q.1 := by
    intro p hp q hq
    rw [List.map_append] at hsorted
    exact (List.pairwise_append.mp hsorted).2.2 p.1 (List.mem_map_of_mem Prod.fst hp)
      q.1 (List.mem_map_of_mem Prod.fst hq)
  have hinv := clockInvariant_run_init ops r0 now hsorted1 hnow
  obtain ⟨t, ht, hg, hi⟩ := hinv id s hs
  refine ⟨⟨t, ht, hg, hi⟩, ?_, ?_, ?_⟩
  · intro hst
    rw [lookup_no_activity, if_pos rfl, hs, Option.map_some',
      no_activity_session_gone s t now ht (hg hst)]
    cases s
    simp_all
  · intro hno s2 h2
    rw [run_append] at h2
    cases ops2 with
    | nil =>
      simp only [run] at h2
      rw [hs] at h2
      cases h2
      exact le_refl _
    | cons p rest =>
      have hinv1 : clockInvariant p.1 (run (chat_sessions_init r0) ops) :=
        clockInvariant_run_init ops r0 p.1 hsorted1
          (fun q hq => hcross q hq p (List.mem_cons_self _ _))
      apply stateRank_run (p :: rest) _ p.1 id s s2 hinv1 hs _ hsorted2 hno h2
      intro q hq
      rcases List.mem_cons.mp hq with h | h
      · rw [h]
      · simp only [List.map_cons, List.sorted_cons] at hsorted2
        exact hsorted2.1 q.1 (List.mem_map_of_mem Prod.fst h)
  · intro q t1 n hq ht1 h120 h600
    rw [no_activity_session_inactive q t1 n ht1 h120 h600]
    simp [hq]

/-- Witness for C19: "a" is started at 0 and polled at 700 (gone); at 800 the
timer still reads more than 600, and a later `set_sent` at 900 keeps the rank. -/
theorem monotone_clock_states_advance_witness :
    (([((0 : ℚ), Op.start "a" true), (700, Op.no_activity "a")] ++
        [((900 : ℚ), Op.set_sent "a")]).map Prod.fst).Sorted (· ≤ ·)
      ∧ (∀ p ∈ [((0 : ℚ), Op.start "a" true), (700, Op.no_activity "a")], p.1 ≤ 800)
      ∧ g_hash_table_lookup
          (run (chat_sessions_init ⟨g_hash_table_new_full, []⟩)
            [((0 : ℚ), Op.start "a" true), (700, Op.no_activity "a")]).sessions "a" =
        some { recipient := "a", recipient_supports := true, state := CHAT_STATE_GONE,
               active_timer := some ⟨0⟩, sent := false }
      ∧ (∃ t, (some (GTimer.mk 0)) = some t
          ∧ (CHAT_STATE_GONE = CHAT_STATE_GONE → g_timer_elapsed t 800 > 600)
          ∧ (CHAT_STATE_GONE = CHAT_STATE_INACTIVE → g_timer_elapsed t 800 > 120)) := by
  have hsorted : (([((0 : ℚ), Op.start "a" true), (700, Op.no_activity "a")] ++
      [((900 : ℚ), Op.set_sent "a")]).map Prod.fst).Sorted (· ≤ ·) := by
    simp [List.Sorted]
    norm_num
  have hnow : ∀ p ∈ [((0 : ℚ), Op.start "a" true), (700, Op.no_activity "a")],
      p.1 ≤ 800 := by
    intro p hp
    simp only [List.mem_cons, List.mem_singleton, List.not_mem_nil, or_false] at hp
    rcases hp with h | h <;> rw [h] <;> norm_num
  have hs : g_hash_table_lookup
      (run (chat_sessions_init ⟨g_hash_table_new_full, []⟩)
        [((0 : ℚ), Op.start "a" true), (700, Op.no_activity "a")]).sessions "a" =
      some { recipient := "a", recipient_supports := true, state := CHAT_STATE_GONE,
             active_timer := some ⟨0⟩, sent := false } := by
    simp [run, step, chat_sessions_init, chat_session_no_activity, chat_session_start, store,
      g_hash_table_lookup, g_hash_table_insert, no_activity_session, g_timer_elapsed,
      _chat_session_new, g_timer_new, GONE_TIMOUT]
    norm_num
  exact ⟨hsorted, hnow, hs,
    (monotone_clock_states_advance ⟨g_hash_table_new_full, []⟩ _ _ 800 "a" _
      hsorted hnow hs).1⟩

end ChatSession
